import Mathlib

/-!
Verification development for the CIA World Factbook archive's structured
field-extraction pipeline.

The two programs under study are
`src/etl/structured_parsing/parse_field_values.py` (value extraction:
dispatcher, specialized extractors, generic fallback) and
`src/etl/build_field_mappings.py` (field-name canonicalizer).

The Python code is regex-driven.  Each regular expression used by the
embedded functions is hand-compiled here into an executable scanner over
`List Char` that reproduces Python `re` semantics for the construct mix the
pattern actually uses (leftmost match, ordered alternation, greedy/lazy
quantifiers with the backtracking that is reachable for each pattern).
Numeric values are modelled as exact rationals; Python `float` parsing of
the digit/dot strings produced by these regex groups is exact, and every
arithmetic step of the embedded extractors (scaling by powers of ten,
means, `round(x, k)`) is reproduced on `ℚ`.  `round` is modelled as
round-half-to-even on the rational value (Python rounds the underlying
binary double; the two agree away from representation-induced ties).
Computations are written with `mkRat`-based arithmetic so that every
definition evaluates inside the kernel.
-/

/-! ## Kernel-reducible rational arithmetic -/

/-- Multiplication on `ℚ` via `mkRat`, definitionally evaluable. -/
def qmul (a b : ℚ) : ℚ := mkRat (a.num * b.num) (a.den * b.den)

/-- Addition on `ℚ` via `mkRat`, definitionally evaluable. -/
def qadd (a b : ℚ) : ℚ := mkRat (a.num * b.den + b.num * a.den) (a.den * b.den)

/-- Negation on `ℚ` via `mkRat`, definitionally evaluable. -/
def qneg (a : ℚ) : ℚ := mkRat (-a.num) a.den

/-- The rational `n / 1`. -/
def qc (n : Int) : ℚ := mkRat n 1

/-- Floor of a rational, computed by integer division. -/
def qfloorZ (q : ℚ) : Int := q.num / (q.den : Int)

/-- Round-half-to-even of a rational to an integer (Python `round(x)`). -/
def roundHalfEven (q : ℚ) : Int :=
  let f := qfloorZ q
  let r2 := 2 * (q.num - f * (q.den : Int))
  if r2 < (q.den : Int) then f
  else if r2 > (q.den : Int) then f + 1
  else if f % 2 = 0 then f else f + 1

/-- Python `round(x, 1)` modelled on the exact rational value. -/
def pyRound1 (q : ℚ) : ℚ := mkRat (roundHalfEven (qmul q (qc 10))) 10

/-- Python `round(x, 4)` modelled on the exact rational value. -/
def pyRound4 (q : ℚ) : ℚ := mkRat (roundHalfEven (qmul q (qc 10000))) 10000

/-! ## Character classes and low-level string scanning

All scanners work on `List Char`.  `pyWs` is Python's `\s` (ASCII range),
`dotCh` is Python's `.` (anything except a newline, no DOTALL flag is used
anywhere in the source). -/

/-- Python `\s` for the ASCII range. -/
def pyWs (c : Char) : Bool :=
  c = ' ' || c = '\t' || c = '\n' || c = '\r' || c = '\x0b' || c = '\x0c'

/-- Python `.` without DOTALL: any character except newline. -/
def dotCh (c : Char) : Bool := c ≠ '\n'

/-- ASCII letter test (Python `[a-zA-Z]`). -/
def asciiAlpha (c : Char) : Bool := ('a' ≤ c && c ≤ 'z') || ('A' ≤ c && c ≤ 'Z')

/-- ASCII digit test (Python `\d` on this corpus). -/
def isDig (c : Char) : Bool := '0' ≤ c && c ≤ '9'

/-- Python word character `\w` (used only for `\b` boundaries). -/
def wordCh (c : Char) : Bool := asciiAlpha c || isDig c || c = '_'

/-- Drop a leading whitespace run (`\s*`, greedy). -/
def dropWs (l : List Char) : List Char := l.dropWhile pyWs

/-- Case-insensitive character comparison via ASCII lowercase. -/
def lowEq (a b : Char) : Bool := a.toLower = b.toLower

/-- Match a literal at the head of the input, returning the rest. -/
def stripLit : List Char → List Char → Option (List Char)
  | [], l => some l
  | _ :: _, [] => none
  | p :: ps, c :: cs => if c = p then stripLit ps cs else none

/-- Case-insensitive literal match at the head of the input. -/
def stripLitCI : List Char → List Char → Option (List Char)
  | [], l => some l
  | _ :: _, [] => none
  | p :: ps, c :: cs => if lowEq c p then stripLitCI ps cs else none

/-- Case-insensitive literal match that also returns the matched text as it
appeared in the input (used where Python keeps a capture of it). -/
def stripLitCIKeep : List Char → List Char → Option (List Char × List Char)
  | [], l => some ([], l)
  | _ :: _, [] => none
  | p :: ps, c :: cs =>
    if lowEq c p then (stripLitCIKeep ps cs).map (fun pr => (c :: pr.1, pr.2)) else none

/-- Match exactly `n` digits (`\d{n}`). -/
def takeDigits : Nat → List Char → Option (List Char × List Char)
  | 0, l => some ([], l)
  | _ + 1, [] => none
  | n + 1, c :: cs =>
    if isDig c then (takeDigits n cs).map (fun pr => (c :: pr.1, pr.2)) else none

/-- Decimal value of a digit string (Python `int` on a `\d+` group). -/
def digsToNat (l : List Char) : Nat :=
  l.foldl (fun a c => 10 * a + (c.toNat - 48)) 0

/-- Leftmost-match search: run the position matcher `tm` at each suffix in
turn (the way `re.search` scans).  Returns the suffix at which the match
begins together with the matcher result. -/
def searchAux (tm : List Char → Option (α × List Char)) :
    List Char → Option (List Char × α × List Char)
  | [] => (tm []).map (fun pr => ([], pr.1, pr.2))
  | c :: cs =>
    match tm (c :: cs) with
    | some (a, rest) => some (c :: cs, a, rest)
    | none => searchAux tm cs

/-- The matched fragment (`m.group(0)`) of a `searchAux` result. -/
def fragOf (sfx rest : List Char) : List Char := sfx.take (sfx.length - rest.length)

/-- All non-overlapping matches in scan order (`re.finditer`), each paired
with its matched fragment.  Every pattern used with this combinator consumes
at least one character, so recursing on the unconsumed rest terminates; the
fuel is instantiated with the input length. -/
def finditerAux (tm : List Char → Option (α × List Char)) :
    Nat → List Char → List (α × List Char)
  | 0, _ => []
  | fuel + 1, l =>
    match searchAux tm l with
    | none => []
    | some (sfx, a, rest) =>
      (a, fragOf sfx rest) ::
        (if rest.length < l.length then finditerAux tm fuel rest else [])

/-- Python `str.strip()`: drop whitespace at both ends. -/
def pyStripR (l : List Char) : List Char :=
  ((l.dropWhile pyWs).reverse.dropWhile pyWs).reverse

/-- Substring containment (Python `needle in hay`). -/
def containsSub (needle hay : List Char) : Bool :=
  (searchAux (fun l => (stripLit needle l).map (fun r => ((), r))) hay).isSome

/-- Python `str.split(sep)` for a non-empty separator. -/
def splitSub (sep : List Char) : Nat → List Char → List (List Char)
  | 0, l => [l]
  | fuel + 1, l =>
    match searchAux (fun t => (stripLit sep t).map (fun r => ((), r))) l with
    | none => [l]
    | some (sfx, _, rest) => (l.take (l.length - sfx.length)) :: splitSub sep fuel rest

/-- Python `str.replace(pat, rep)` for a non-empty pattern. -/
def replAll (pat rep : List Char) : Nat → List Char → List Char
  | 0, l => l
  | fuel + 1, l =>
    match l with
    | [] => []
    | c :: cs =>
      match stripLit pat l with
      | some rest => rep ++ replAll pat rep fuel rest
      | none => c :: replAll pat rep fuel cs

/-- ASCII `str.lower()`. -/
def lowerL (l : List Char) : List Char := l.map Char.toLower

/-! ## Python float parsing

`parse_number` and the raw `float(...)` calls in the source only ever
receive strings drawn from the regex classes `[\d,]`, `[\d.,]` and `[\d.]`
with an optional leading minus sign (commas are removed first).  On that
alphabet Python `float` accepts exactly an optional sign followed by
`digits`, `digits.`, `digits.digits` or `.digits`, and the value is the
exact decimal — reproduced here on `ℚ`. -/

/-- Value of an unsigned decimal literal over digits and at most one dot. -/
def pyFloatCore (l : List Char) : Option ℚ :=
  match l.span isDig with
  | (ip, rest) =>
    match rest with
    | [] => if ip.isEmpty then none else some (qc (digsToNat ip))
    | '.' :: fp =>
      if fp.all isDig && (!ip.isEmpty || !fp.isEmpty) then
        some (qadd (qc (digsToNat ip)) (mkRat (digsToNat fp) (10 ^ fp.length)))
      else none
    | _ => none

/-- Python `float(s)` on the digit/dot/sign strings reachable in the source;
`none` models `ValueError`. -/
def pyFloat? (l : List Char) : Option ℚ :=
  match l with
  | '-' :: t => (pyFloatCore t).map qneg
  | '+' :: t => pyFloatCore t
  | t => pyFloatCore t

/-- Python `float(s)` where the source does not guard the call: a parse
failure is an uncaught exception. -/
def pyFloatE (l : List Char) : Except Unit ℚ :=
  match pyFloat? l with
  | some q => .ok q
  | none => .error ()

/-- `parse_number` of `parse_field_values.py`: strip, remove thousands
separators, coerce to float, `None` on failure. -/
def parse_number (l : List Char) : Option ℚ :=
  if l.isEmpty then none else pyFloat? ((pyStripR l).filter (fun c => c ≠ ','))

/-! ## Shared annotation primitives of `parse_field_values.py` -/

/-- Matcher for `\((\d{4}\s*est\.?)\)` (case-sensitive), returning the
group-1 text. -/
def tmEst : List Char → Option (List Char × List Char)
  | '(' :: rest => do
    let (ds, r1) ← takeDigits 4 rest
    let (w, r2) := r1.span pyWs
    let r3 ← stripLit "est".data r2
    let (dot, r4) := match r3 with
      | '.' :: t => (['.'], t)
      | _ => ([], r3)
    match r4 with
    | ')' :: r5 => some (ds ++ w ++ "est".data ++ dot, r5)
    | _ => none
  | _ => none

/-- One `\d{2,4}` + `/?` + `(\d{2})?` + `\)` attempt for the fiscal-year
form, at a fixed digit count. -/
def tmFYtail (r : List Char) : Option (List Char × List Char) :=
  (match r with
   | '/' :: r1 =>
     (match takeDigits 2 r1 with
      | some (dd, r2) =>
        match r2 with
        | ')' :: r3 => some ('/' :: dd, r3)
        | _ => none
      | none => none) <|>
     (match r1 with
      | ')' :: r3 => some (['/'], r3)
      | _ => none)
   | _ => none) <|>
  (match takeDigits 2 r with
   | some (dd, r2) =>
     match r2 with
     | ')' :: r3 => some (dd, r3)
     | _ => none
   | none => none) <|>
  (match r with
   | ')' :: r3 => some ([], r3)
   | _ => none)

/-- The fiscal-year attempt at one digit count (greedy `\d{2,4}` tries 4,
then 3, then 2). -/
def tmFYat (n : Nat) (r0 : List Char) : Option (List Char × List Char) := do
  let (ds, r1) ← takeDigits n r0
  let (sfx, r2) ← tmFYtail r1
  some ("FY".data ++ ds ++ sfx, r2)

/-- Matcher for `\((FY\d{2,4}/?(?:\d{2})?)\)`, returning the group-1 text. -/
def tmFY : List Char → Option (List Char × List Char)
  | '(' :: rest => do
    let r0 ← stripLit "FY".data rest
    (tmFYat 4 r0) <|> (tmFYat 3 r0) <|> (tmFYat 2 r0)
  | _ => none

/-- Matcher for a bare `\((\d{4})\)`, returning the group-1 text. -/
def tmBareYear : List Char → Option (List Char × List Char)
  | '(' :: rest => do
    let (ds, r1) ← takeDigits 4 rest
    match r1 with
    | ')' :: r2 => some (ds, r2)
    | _ => none
  | _ => none

/-- `extract_date_est` of `parse_field_values.py`: three `re.search` calls
in sequence — the `(YYYY est.)` form anywhere in the string, then the
`(FYnn[/nn])` form, then a bare `(YYYY)`. -/
def extract_date_est (l : List Char) : Option String :=
  match searchAux tmEst l with
  | some (_, g, _) => some ⟨g⟩
  | none =>
    match searchAux tmFY l with
    | some (_, g, _) => some ⟨g⟩
    | none =>
      match searchAux tmBareYear l with
      | some (_, g, _) => some ⟨g⟩
      | none => none

/-- Matcher for `country comparison to the world:\s*(\d+)`. -/
def tmRank (l : List Char) : Option (Nat × List Char) := do
  let r1 ← stripLit "country comparison to the world:".data l
  let r2 := dropWs r1
  match r2.span isDig with
  | (ds, r3) => if ds.isEmpty then none else some (digsToNat ds, r3)

/-- `extract_rank` of `parse_field_values.py`. -/
def extract_rank (l : List Char) : Option Nat :=
  (searchAux tmRank l).map (fun pr => pr.2.1)

/-- Matcher for one occurrence of the substitution pattern
`\s*\|?\s*country comparison to the world:\s*\d+` of `normalize_content`. -/
def tmCCW (l : List Char) : Option (Unit × List Char) := do
  let r1 := dropWs l
  let r2 := match r1 with
    | '|' :: t => t
    | _ => r1
  let r3 := dropWs r2
  let r4 ← stripLit "country comparison to the world:".data r3
  let r5 := dropWs r4
  match r5.span isDig with
  | (ds, r6) => if ds.isEmpty then none else some ((), r6)

/-- The `re.sub` loop of `normalize_content`: delete every match, scanning
left to right. -/
def subCCW : Nat → List Char → List Char
  | 0, l => l
  | _ + 1, [] => []
  | fuel + 1, c :: cs =>
    match tmCCW (c :: cs) with
    | some (_, rest) => subCCW fuel rest
    | none => c :: subCCW fuel cs

/-- `normalize_content` of `parse_field_values.py`: remove the world-rank
annotation, then strip. -/
def normalize_content (s : String) : String :=
  if s.isEmpty then "" else ⟨pyStripR (subCCW (s.data.length + 1) s.data)⟩

/-! ## The Structured Value data model -/

/-- One `FieldValues` row as produced by the extractors (the tuple built by
`make_row`). -/
structure Row where
  field_id : Nat
  sub_field : String
  numeric_val : Option ℚ
  units : Option String
  text_val : Option String
  date_est : Option String
  rank : Option Nat
  source_frag : Option String
deriving DecidableEq

deriving instance DecidableEq for Except

/-- `MAX_FRAG_LEN` of `parse_field_values.py`. -/
def MAX_FRAG_LEN : Nat := 500

/-- `make_row` of `parse_field_values.py`: build a row tuple, truncating the
source fragment to `MAX_FRAG_LEN`. -/
def make_row (fid : Nat) (sub : String) (num : Option ℚ) (units : Option String)
    (text : Option String) (dEst : Option String) (rank : Option Nat)
    (frag : Option String) : Row :=
  { field_id := fid, sub_field := sub, numeric_val := num, units := units,
    text_val := text, date_est := dEst, rank := rank,
    source_frag := frag.map (fun s => ⟨s.data.take MAX_FRAG_LEN⟩) }

/-! ## Backtracking helpers for trailing `(.+)` groups

In patterns of the shape `\s*:?\s*(.+)` the greedy whitespace skip gives
characters back one at a time when `(.+)` has nothing left to match (every
prefix of the skipped run is itself a valid `\s*:?\s*` match), so the group
starts at the largest feasible offset within the skipped run. -/

/-- Greedy `(.+)` at a fixed start offset: needs a non-newline character,
then extends to the next newline. -/
def dotPlusFrom (t : List Char) (j : Nat) : Option (List Char × List Char) :=
  match t.drop j with
  | [] => none
  | c :: cs =>
    if c = '\n' then none
    else
      let g := c :: cs.takeWhile dotCh
      some (g, (c :: cs).drop g.length)

/-- Backtracking `(.+)` start search: largest offset `j ≤ jmax` first. -/
def dotPlusBack (t : List Char) : Nat → Option (List Char × List Char)
  | 0 => dotPlusFrom t 0
  | j + 1 => dotPlusFrom t (j + 1) <|> dotPlusBack t j

/-- Deterministic `\s*:?\s*` skip (whitespace, optional colon, whitespace);
used directly where the following pattern cannot match skipped characters. -/
def colonWs (l : List Char) : List Char :=
  let r1 := dropWs l
  let r2 := match r1 with
    | ':' :: t => t
    | _ => r1
  dropWs r2

/-! ## `parse_area` -/

/-- Matcher for `LABEL\s*:?\s*([\d,]+)\s*(?:sq\s*km|km2)` (IGNORECASE):
the alternation `sq\s*km` then `km2`. -/
def tmUnitSqkm (l : List Char) : Option (List Char) :=
  (do
    let r1 ← stripLitCI "sq".data l
    let r2 := dropWs r1
    stripLitCI "km".data r2) <|>
  stripLitCI "km2".data l

/-- The labeled-area matcher at one position; group 1 is the `[\d,]+` run. -/
def tmAreaLabel (label : List Char) (l : List Char) : Option (List Char × List Char) := do
  let r1 ← stripLitCI label l
  let r2 := colonWs r1
  match r2.span (fun c => isDig c || c = ',') with
  | (num, r3) =>
    if num.isEmpty then none
    else do
      let r4 := dropWs r3
      let r5 ← tmUnitSqkm r4
      some (num, r5)

/-- The label list iterated by `parse_area`. -/
def areaSubLabels : List String := ["total area", "total", "land area", "land", "water"]

/-- One labeled sub-field row of `parse_area` (absent when the label's
pattern does not match). -/
def areaLabelRow (fid : Nat) (rank : Option Nat) (c : List Char) (label : String) :
    Option Row :=
  (searchAux (tmAreaLabel label.data) c).map (fun pr =>
    let sub : String := ⟨replAll " area".data [] (label.data.length + 1) label.data⟩
    make_row fid sub (parse_number pr.2.1) (some "sq km") none (extract_date_est c)
      (if sub = "total" then rank else none) (some ⟨fragOf pr.1 pr.2.2⟩))

/-- Close test for the comparative pattern's `(?:\s*(?:note|$))`: greedy
whitespace then the literal `note` (IGNORECASE) or end of input. -/
def tmCompClose (l : List Char) : Option (List Char) :=
  let r := l.dropWhile pyWs
  match stripLitCI "note".data r with
  | some r2 => some r2
  | none => if r.isEmpty then some [] else none

/-- Lazy `(.+?)` growth for the comparative pattern: take one character at a
time (non-newline) and try to close after each. -/
def tmCompGroup : Nat → List Char → List Char → Option (List Char × List Char)
  | 0, _, _ => none
  | _ + 1, _, [] => none
  | fuel + 1, acc, c :: rest =>
    if c = '\n' then none
    else
      let acc2 := acc ++ [c]
      match tmCompClose rest with
      | some r2 => some (acc2, r2)
      | none => tmCompGroup fuel acc2 rest

/-- The comparative group with backtracking over the `\s*:?\s*` skip
(largest skip first, then lazy group growth). -/
def tmCompBack (r : List Char) : Nat → Option (List Char × List Char)
  | 0 => tmCompGroup (r.length + 1) [] r
  | j + 1 =>
    tmCompGroup ((r.drop (j + 1)).length + 1) [] (r.drop (j + 1)) <|> tmCompBack r j

/-- Matcher for `comparative\s*(?:area)?\s*:?\s*(.+?)(?:\s*(?:note|$))`
(IGNORECASE) of `parse_area`. -/
def tmComp (l : List Char) : Option (List Char × List Char) := do
  let r1 ← stripLitCI "comparative".data l
  (do
    let r2 := dropWs r1
    let r3 ← stripLitCI "area".data r2
    let jmax := r3.length - (colonWs r3).length
    tmCompBack r3 jmax) <|>
  (do
    let jmax := r1.length - (colonWs r1).length
    tmCompBack r1 jmax)

/-- Matcher for `note\s*:?\s*(.+)` (IGNORECASE) of `parse_area`. -/
def tmNoteArea (l : List Char) : Option (List Char × List Char) := do
  let r1 ← stripLitCI "note".data l
  let jmax := r1.length - (colonWs r1).length
  dotPlusBack r1 jmax

/-- `parse_area` of `parse_field_values.py`. -/
def parse_area (fid : Nat) (content0 : String) : List Row :=
  let rank := extract_rank content0.data
  let c := (normalize_content content0).data
  let base := areaSubLabels.filterMap (areaLabelRow fid rank c)
  let comp := (searchAux tmComp c).map (fun pr =>
    make_row fid "comparative" none none (some ⟨pyStripR pr.2.1⟩) none none
      (some ⟨fragOf pr.1 pr.2.2⟩))
  let note := (searchAux tmNoteArea c).map (fun pr =>
    make_row fid "note" none none (some ⟨pyStripR pr.2.1⟩) none none
      (some ⟨fragOf pr.1 pr.2.2⟩))
  base ++ comp.toList ++ note.toList

/-! ## `parse_gps` -/

/-- Matcher for `(\d+)\s+(\d+)\s*([NS])\s*,?\s*(\d+)\s+(\d+)\s*([EW])`. -/
def tmGPS (l : List Char) : Option ((Nat × Nat × Char × Nat × Nat × Char) × List Char) := do
  match l.span isDig with
  | (d1, r1) =>
    if d1.isEmpty then none
    else
      match r1.span pyWs with
      | (w1, r2) =>
        if w1.isEmpty then none
        else
          match r2.span isDig with
          | (m1, r3) =>
            if m1.isEmpty then none
            else do
              let r4 := dropWs r3
              let (h1, r5) ← match r4 with
                | 'N' :: t => some ('N', t)
                | 'S' :: t => some ('S', t)
                | _ => none
              let r6 := dropWs r5
              let r7 := match r6 with
                | ',' :: t => t
                | _ => r6
              let r8 := dropWs r7
              match r8.span isDig with
              | (d2, r9) =>
                if d2.isEmpty then none
                else
                  match r9.span pyWs with
                  | (w2, r10) =>
                    if w2.isEmpty then none
                    else
                      match r10.span isDig with
                      | (m2, r11) =>
                        if m2.isEmpty then none
                        else do
                          let r12 := dropWs r11
                          let (h2, r13) ← match r12 with
                            | 'E' :: t => some ('E', t)
                            | 'W' :: t => some ('W', t)
                            | _ => none
                          some ((digsToNat d1, digsToNat m1, h1,
                                 digsToNat d2, digsToNat m2, h2), r13)

/-- `parse_gps` of `parse_field_values.py`: degrees + minutes + hemisphere
to signed decimal latitude/longitude, rounded to four decimals. -/
def parse_gps (fid : Nat) (content0 : String) : List Row :=
  let c := (normalize_content content0).data
  match searchAux tmGPS c with
  | none => []
  | some (sfx, g, rest) =>
    match g with
    | (d1, m1, h1, d2, m2, h2) =>
      let lat0 := qadd (qc d1) (mkRat m1 60)
      let lat := if h1 = 'S' then qneg lat0 else lat0
      let lon0 := qadd (qc d2) (mkRat m2 60)
      let lon := if h2 = 'W' then qneg lon0 else lon0
      let frag : String := ⟨fragOf sfx rest⟩
      [make_row fid "latitude" (some (pyRound4 lat)) (some "degrees") none none none
         (some frag),
       make_row fid "longitude" (some (pyRound4 lon)) (some "degrees") none none none
         (some frag)]

/-! ## `parse_multi_year_dollar` -/

/-- Groups of one `\$([\d.,]+)\s*(trillion|billion|million)?\s*(?:\((\d{4})\s*est\.?\))?`
occurrence: the raw value text, the magnitude suffix (already lowercased, as
after the source's `.lower()`), and the optional year group. -/
structure DollarM where
  val : List Char
  mag : Option String
  year : Option (List Char)
deriving DecidableEq

/-- Character class `[\d.,]`. -/
def isDollarValCh (c : Char) : Bool := isDig c || c = '.' || c = ','

/-- The optional `\((\d{4})\s*est\.?\)` tail of the dollar pattern
(IGNORECASE applies to `est`). -/
def tmYearEstCI : List Char → Option (List Char × List Char)
  | '(' :: rest => do
    let (ds, r1) ← takeDigits 4 rest
    let r2 := dropWs r1
    let r3 ← stripLitCI "est".data r2
    let r4 := match r3 with
      | '.' :: t => t
      | _ => r3
    match r4 with
    | ')' :: r5 => some (ds, r5)
    | _ => none
  | _ => none

/-- One dollar-amount occurrence matcher. -/
def tmDollar (l : List Char) : Option (DollarM × List Char) :=
  match l with
  | '$' :: rest =>
    match rest.span isDollarValCh with
    | (v, r1) =>
      if v.isEmpty then none
      else
        let r2 := dropWs r1
        let (mag, r3) :=
          match stripLitCI "trillion".data r2 with
          | some r => (some "trillion", r)
          | none =>
            match stripLitCI "billion".data r2 with
            | some r => (some "billion", r)
            | none =>
              match stripLitCI "million".data r2 with
              | some r => (some "million", r)
              | none => (none, r2)
        let r4 := dropWs r3
        match tmYearEstCI r4 with
        | some (y, r5) => some (⟨v, mag, some y⟩, r5)
        | none => some (⟨v, mag, none⟩, r4)
  | _ => none

/-- All dollar occurrences of a content, in source order. -/
def dollarFind (l : List Char) : List (DollarM × List Char) :=
  finditerAux tmDollar (l.length + 1) l

/-- The magnitude scaling chain of `parse_multi_year_dollar` (and of the
other dollar-handling sites, which share the same three suffixes). -/
def dollarScale (mag : Option String) (v : ℚ) : ℚ :=
  match mag with
  | some "trillion" => qmul v (qc 1000000000000)
  | some "billion" => qmul v (qc 1000000000)
  | some "million" => qmul v (qc 1000000)
  | _ => v

/-- Sub-field key assignment of the dollar loop: `value_<year>` when a year
annotation is present, else `value` for the first occurrence and `value_<i>`
for later ones. -/
def dollarKey (i : Nat) (year : Option (List Char)) : String :=
  match year with
  | some y => ⟨"value_".data ++ y⟩
  | none => if i = 0 then "value" else ⟨"value_".data ++ (Nat.repr i).data⟩

/-- One iteration of the dollar-occurrence loop: an occurrence whose value
text fails `float` is skipped (`continue`) but still advances the
`enumerate` index. -/
def dollarRowOf (fid : Nat) (rank : Option Nat) (im : Nat × DollarM × List Char) :
    Option Row :=
  match pyFloat? (im.2.1.val.filter (fun c => c ≠ ',')) with
  | none => none
  | some v =>
    some (make_row fid (dollarKey im.1 im.2.1.year)
      (some (dollarScale im.2.1.mag v)) (some "USD") none
      (im.2.1.year.map (fun y => (⟨y ++ " est.".data⟩ : String)))
      (if im.1 = 0 then rank else none) (some ⟨im.2.2⟩))

/-- The dollar-occurrence loop of `parse_multi_year_dollar`. -/
def dollarValueRows (fid : Nat) (rank : Option Nat) (ms : List (DollarM × List Char)) :
    List Row :=
  ms.enum.filterMap (dollarRowOf fid rank)

/-- The `(.+?)$` group at a fixed start offset for the trailing-note
pattern: the rest of the input, which must contain no interior newline
(an interior newline makes `$` unreachable for a lazy dot group). -/
def tmNoteDollarAt (l : List Char) (j : Nat) : Option (List Char × List Char) :=
  let u := l.drop j
  let core := if u.getLast? = some '\n' then u.dropLast else u
  if core.isEmpty || core.any (fun c => c = '\n') then none
  else some (core, u.drop core.length)

/-- Backtracking start search for the trailing-note group. -/
def noteDollarBack (l : List Char) : Nat → Option (List Char × List Char)
  | 0 => tmNoteDollarAt l 0
  | j + 1 => tmNoteDollarAt l (j + 1) <|> noteDollarBack l j

/-- Matcher for `note\s*:\s*(.+?)$` (IGNORECASE). -/
def tmNoteDollar (l : List Char) : Option (List Char × List Char) := do
  let r1 ← stripLitCI "note".data l
  match (r1.span pyWs).2 with
  | ':' :: r3 => noteDollarBack r3 (r3.takeWhile pyWs).length
  | _ => none

/-- `parse_multi_year_dollar` of `parse_field_values.py`. -/
def parse_multi_year_dollar (fid : Nat) (content0 : String) : List Row :=
  let rank := extract_rank content0.data
  let c := (normalize_content content0).data
  let base := dollarValueRows fid rank (dollarFind c)
  let note := (searchAux tmNoteDollar c).map (fun pr =>
    make_row fid "note" none none (some ⟨pyStripR pr.2.1⟩) none none
      (some ⟨fragOf pr.1 pr.2.2⟩))
  base ++ note.toList

/-! ## `parse_life_exp` -/

/-- Character class `[\d.]`. -/
def isNumDotCh (c : Char) : Bool := isDig c || c = '.'

/-- Lazy `.*?` scan: try the tail matcher at the current position first,
then advance one (non-newline) character at a time. -/
def lazyScan (tm : List Char → Option (α × List Char)) :
    Nat → List Char → Option (α × List Char)
  | 0, l => tm l
  | fuel + 1, l =>
    match tm l with
    | some r => some r
    | none =>
      match l with
      | [] => none
      | c :: cs => if c = '\n' then none else lazyScan tm fuel cs

/-- Matcher for `total population:\s*([\d.]+)` (case-sensitive). -/
def tmTotPop (l : List Char) : Option (List Char × List Char) := do
  let r1 ← stripLit "total population:".data l
  let r2 := dropWs r1
  match r2.span isNumDotCh with
  | (g, r3) => if g.isEmpty then none else some (g, r3)

/-- Matcher for `male:\s*([\d.]+)\s*years`. -/
def tmMaleY (l : List Char) : Option (List Char × List Char) := do
  let r1 ← stripLit "male:".data l
  let r2 := dropWs r1
  match r2.span isNumDotCh with
  | (g, r3) =>
    if g.isEmpty then none
    else do
      let r4 := dropWs r3
      let r5 ← stripLit "years".data r4
      some (g, r5)

/-- Matcher for `female:\s*([\d.]+)\s*years`. -/
def tmFemaleY (l : List Char) : Option (List Char × List Char) := do
  let r1 ← stripLit "female:".data l
  let r2 := dropWs r1
  match r2.span isNumDotCh with
  | (g, r3) =>
    if g.isEmpty then none
    else do
      let r4 := dropWs r3
      let r5 ← stripLit "years".data r4
      some (g, r5)

/-- Tail of the legacy male half: `\s*male\b`. -/
def tmLifeMaleTail (g : List Char) (r : List Char) : Option (List Char × List Char) := do
  let r2 := dropWs r
  let r3 ← stripLit "male".data r2
  match r3 with
  | [] => some (g, [])
  | c :: _ => if wordCh c then none else some (g, r3)

/-- First half of the legacy pattern: `([\d.]+)\s*years?\s*male\b` (the
optional `s` is tried greedily, with fallback). -/
def tmLifeMale (l : List Char) : Option (List Char × List Char) :=
  match l.span isNumDotCh with
  | (g, r1) =>
    if g.isEmpty then none
    else
      let r2 := dropWs r1
      match stripLit "year".data r2 with
      | none => none
      | some r3 =>
        (match r3 with
         | 's' :: t => tmLifeMaleTail g t
         | _ => none) <|> tmLifeMaleTail g r3

/-- Second half of the legacy pattern: `([\d.]+)\s*years?\s*female`. -/
def tmLifeFem (l : List Char) : Option (List Char × List Char) :=
  match l.span isNumDotCh with
  | (g, r1) =>
    if g.isEmpty then none
    else
      let r2 := dropWs r1
      match stripLit "year".data r2 with
      | none => none
      | some r3 =>
        (match r3 with
         | 's' :: t => (stripLit "female".data (dropWs t)).map (fun r4 => (g, r4))
         | _ => none) <|>
        (stripLit "female".data (dropWs r3)).map (fun r4 => (g, r4))

/-- The legacy 1990 pattern
`([\d.]+)\s*years?\s*male\b.*?([\d.]+)\s*years?\s*female`. -/
def tmLegacyLife (l : List Char) : Option ((List Char × List Char) × List Char) := do
  let (g1, r1) ← tmLifeMale l
  let (g2, r2) ← lazyScan tmLifeFem r1.length r1
  some ((g1, g2), r2)

/-- The bare pattern `^([\d.]+)\s*years?` on the stripped content; returns
the group and the whole match. -/
def tmBareYears (l : List Char) : Option (List Char × List Char) :=
  match l.span isNumDotCh with
  | (g, r1) =>
    if g.isEmpty then none
    else
      match r1.span pyWs with
      | (w, r2) =>
        match stripLit "year".data r2 with
        | none => none
        | some r3 =>
          match r3 with
          | 's' :: _ => some (g, g ++ w ++ "years".data)
          | _ => some (g, g ++ w ++ "year".data)

/-- Divide a rational by a positive natural number, kernel-reducibly. -/
def qdivN (a : ℚ) (n : Nat) : ℚ := mkRat a.num (a.den * n)

/-- The `if not rows:` legacy branch of `parse_life_exp`: the 1990 shape
with its synthesized mean, then the bare `NN years` shape. -/
def lifeLegacy (fid : Nat) (c : List Char) (dEst : Option String) (rank : Option Nat) :
    Except Unit (List Row) :=
  match searchAux tmLegacyLife c with
  | some (sfx, g, rest) =>
    match pyFloatE g.1 with
    | .error e => .error e
    | .ok mv =>
      match pyFloatE g.2 with
      | .error e => .error e
      | .ok fv =>
        let frag : String := ⟨fragOf sfx rest⟩
        .ok
          [make_row fid "male" (some mv) (some "years") none none none (some frag),
           make_row fid "female" (some fv) (some "years") none none none (some frag),
           make_row fid "total_population" (some (pyRound1 (qdivN (qadd mv fv) 2)))
             (some "years") none dEst rank (some frag)]
  | none =>
    match tmBareYears (pyStripR c) with
    | some (g, frag) =>
      match pyFloatE g with
      | .error e => .error e
      | .ok v =>
        .ok [make_row fid "total_population" (some v) (some "years") none dEst rank
          (some ⟨frag⟩)]
    | none => .ok []

/-- `parse_life_exp` of `parse_field_values.py`.  The raw `float(...)`
calls are unguarded in the source, so a group that is not a float literal is
an exception (`Except.error`). -/
def parse_life_exp (fid : Nat) (content0 : String) : Except Unit (List Row) :=
  let rank := extract_rank content0.data
  let c := (normalize_content content0).data
  let dEst := extract_date_est c
  match
    (match searchAux tmTotPop c with
     | none => Except.ok []
     | some (sfx, g, rest) =>
       match pyFloatE g with
       | .error e => .error e
       | .ok v =>
         .ok [make_row fid "total_population" (some v) (some "years") none dEst rank
           (some ⟨fragOf sfx rest⟩)]) with
  | .error e => .error e
  | .ok rows1 =>
    match
      (match searchAux tmMaleY c with
       | none => Except.ok rows1
       | some (sfx, g, rest) =>
         match pyFloatE g with
         | .error e => .error e
         | .ok v =>
           .ok (rows1 ++ [make_row fid "male" (some v) (some "years") none none none
             (some ⟨fragOf sfx rest⟩)])) with
    | .error e => .error e
    | .ok rows2 =>
      match
        (match searchAux tmFemaleY c with
         | none => Except.ok rows2
         | some (sfx, g, rest) =>
           match pyFloatE g with
           | .error e => .error e
           | .ok v =>
             .ok (rows2 ++ [make_row fid "female" (some v) (some "years") none none none
               (some ⟨fragOf sfx rest⟩)])) with
      | .error e => .error e
      | .ok rows3 =>
        if rows3.isEmpty then lifeLegacy fid c dEst rank
        else .ok rows3

/-! ## `parse_electricity` -/

/-- Groups of one electricity pattern: value text, lowercased magnitude
suffix, and the unit text as matched. -/
structure ElecG where
  val : List Char
  mag : Option String
  unit : List Char
deriving DecidableEq

/-- The electricity scaling chain (trillion/billion/million/thousand). -/
def elecScale (mag : Option String) (v : ℚ) : ℚ :=
  match mag with
  | some "trillion" => qmul v (qc 1000000000000)
  | some "billion" => qmul v (qc 1000000000)
  | some "million" => qmul v (qc 1000000)
  | some "thousand" => qmul v (qc 1000)
  | _ => v

/-- Ordered optional magnitude alternation followed by `\s*` and the unit
literal (IGNORECASE); falls back to no magnitude. -/
def tmMagUnitTail (mags : List String) (unit : String) (v : List Char) (r : List Char) :
    Option (ElecG × List Char) :=
  match mags with
  | [] => do
    let r2 := dropWs r
    let (u, r3) ← stripLitCIKeep unit.data r2
    some (⟨v, none, u⟩, r3)
  | m :: rest =>
    (do
      let r1 ← stripLitCI m.data r
      let r2 := dropWs r1
      let (u, r3) ← stripLitCIKeep unit.data r2
      some ((⟨v, some m, u⟩ : ElecG), r3)) <|> tmMagUnitTail rest unit v r

/-- Matcher for `LABEL\s*:\s*([\d.,]+)\s*(MAGS)?\s*(UNIT)` (IGNORECASE). -/
def tmElecPat (label : String) (mags : List String) (unit : String) (l : List Char) :
    Option (ElecG × List Char) := do
  let r1 ← stripLitCI label.data l
  let r2 := dropWs r1
  match r2 with
  | ':' :: r3 =>
    let r4 := dropWs r3
    match r4.span isDollarValCh with
    | (v, r5) =>
      if v.isEmpty then none
      else tmMagUnitTail mags unit v (dropWs r5)
  | _ => none

/-- The capacity pattern with its optional `(?:installed\s+generating\s+)?`
prefix. -/
def tmElecCap (l : List Char) : Option (ElecG × List Char) :=
  (do
    let r1 ← stripLitCI "installed".data l
    match r1.span pyWs with
    | (w1, r2) =>
      if w1.isEmpty then none
      else do
        let r3 ← stripLitCI "generating".data r2
        match r3.span pyWs with
        | (w2, r4) =>
          if w2.isEmpty then none
          else tmElecPat "capacity" ["billion", "million", "thousand"] "kW" r4) <|>
  tmElecPat "capacity" ["billion", "million", "thousand"] "kW" l

/-- The five labeled electricity patterns, in source order. -/
def elecPatterns : List (String × (List Char → Option (ElecG × List Char))) :=
  [("installed_generating_capacity", tmElecCap),
   ("consumption", tmElecPat "consumption" ["trillion", "billion", "million"] "kWh"),
   ("exports", tmElecPat "exports" ["trillion", "billion", "million"] "kWh"),
   ("imports", tmElecPat "imports" ["trillion", "billion", "million"] "kWh"),
   ("production", tmElecPat "production" ["trillion", "billion", "million"] "kWh")]

/-- The labeled-pattern loop of `parse_electricity`; the raw `float` call
is unguarded, so an unparseable value group raises. -/
def elecMainRows (fid : Nat) (c : List Char) :
    List (String × (List Char → Option (ElecG × List Char))) → Except Unit (List Row)
  | [] => .ok []
  | (sub, tm) :: rest =>
    match searchAux tm c with
    | none => elecMainRows fid c rest
    | some (sfx, g, restL) =>
      match pyFloatE (g.val.filter (fun c2 => c2 ≠ ',')) with
      | .error e => .error e
      | .ok v =>
        match elecMainRows fid c rest with
        | .error e => .error e
        | .ok tail =>
          .ok (make_row fid sub (some (elecScale g.mag v)) (some (⟨g.unit⟩ : String)) none
            (extract_date_est c) none (some ⟨fragOf sfx restL⟩) :: tail)

/-- Matcher for the legacy `([\d,]+)\s*(?:million\s+)?kW\s+capacity`
(case-sensitive). -/
def tmElecLegacyCap (l : List Char) : Option (List Char × List Char) :=
  match l.span (fun c => isDig c || c = ',') with
  | (g, r1) =>
    if g.isEmpty then none
    else
      let r2 := dropWs r1
      let cont := fun (r : List Char) => do
        let r3 ← stripLit "kW".data r
        match r3.span pyWs with
        | (w, r4) =>
          if w.isEmpty then none
          else do
            let r5 ← stripLit "capacity".data r4
            some (g, r5)
      (do
        let r3 ← stripLit "million".data r2
        match r3.span pyWs with
        | (w, r4) =>
          if w.isEmpty then none
          else cont r4) <|> cont r2

/-- Matcher for the legacy
`([\d,]+)\s*(?:billion|million)?\s*kWh\s*(?:produced|production)`
(case-sensitive; ordered alternations). -/
def tmElecLegacyProd (l : List Char) : Option (List Char × List Char) :=
  match l.span (fun c => isDig c || c = ',') with
  | (g, r1) =>
    if g.isEmpty then none
    else
      let r2 := dropWs r1
      let cont := fun (r : List Char) => do
        let r3 ← stripLit "kWh".data r
        let r4 := dropWs r3
        let r5 ← (stripLit "produced".data r4) <|> (stripLit "production".data r4)
        some (g, r5)
      (do
        let r3 ← stripLit "billion".data r2
        cont (dropWs r3)) <|>
      (do
        let r3 ← stripLit "million".data r2
        cont (dropWs r3)) <|> cont r2

/-- The legacy branch of `parse_electricity`.  When the production value
fails `parse_number` and a magnitude word occurs in the prefix, the
source's `val *= 1e9` on `None` is a `TypeError` (modelled as an error). -/
def elecLegacy (fid : Nat) (c : List Char) : Except Unit (List Row) :=
  let rows1 := match searchAux tmElecLegacyCap c with
    | none => []
    | some (sfx, g, rest) =>
      [make_row fid "installed_generating_capacity" (parse_number g) (some "kW") none
        none none (some ⟨fragOf sfx rest⟩)]
  match searchAux tmElecLegacyProd c with
  | none => .ok rows1
  | some (sfx, g, rest) =>
    let pre := c.take (c.length - rest.length)
    match parse_number g with
    | some v =>
      let v2 := if containsSub "billion".data pre then qmul v (qc 1000000000)
        else if containsSub "million".data pre then qmul v (qc 1000000)
        else v
      .ok (rows1 ++ [make_row fid "production" (some v2) (some "kWh") none none none
        (some ⟨fragOf sfx rest⟩)])
    | none =>
      if containsSub "billion".data pre || containsSub "million".data pre then .error ()
      else .ok (rows1 ++ [make_row fid "production" none (some "kWh") none none none
        (some ⟨fragOf sfx rest⟩)])

/-- `parse_electricity` of `parse_field_values.py`. -/
def parse_electricity (fid : Nat) (content0 : String) : Except Unit (List Row) :=
  let c := (normalize_content content0).data
  match elecMainRows fid c elecPatterns with
  | .error e => .error e
  | .ok rows => if rows.isEmpty then elecLegacy fid c else .ok rows

/-! ## `parse_generic` -/

/-- Character class of the generic label pattern: letters, whitespace,
dash, slash and parentheses. -/
def labelClassCh (c : Char) : Bool :=
  asciiAlpha c || pyWs c || c = '-' || c = '/' || c = '(' || c = ')'

/-- The anchored label pattern of `parse_generic`: a letter, then 1 to 60
characters of `labelClassCh`, then a colon, then whitespace and a greedy
dot-plus group.  The class excludes the colon, so the counted run is the
maximal class run after the first letter; it must have length 1 to 60 and
be followed by a colon. -/
def matchLabel (part : List Char) : Option (List Char × List Char) :=
  match part with
  | [] => none
  | c :: rest =>
    if asciiAlpha c then
      match rest.span labelClassCh with
      | (run, r1) =>
        if 1 ≤ run.length && run.length ≤ 60 then
          match r1 with
          | ':' :: r2 =>
            (dotPlusBack r2 (r2.takeWhile pyWs).length).map (fun pr => (c :: run, pr.1))
          | _ => none
        else none
    else none

/-- Group 1 of `^(-?[\d,]+\.?\d*)\s*(.*)` together with the rest after it. -/
def numGroup1 (l : List Char) : Option (List Char × List Char) :=
  let sp := match l with
    | '-' :: t => (['-'], t)
    | t => (([] : List Char), t)
  match sp.2.span (fun c => isDig c || c = ',') with
  | (d1, r1) =>
    if d1.isEmpty then none
    else
      let dp := match r1 with
        | '.' :: t => (['.'], t)
        | _ => (([] : List Char), r1)
      match dp.2.span isDig with
      | (d2, r3) => some (sp.1 ++ d1 ++ dp.1 ++ d2, r3)

/-- The ordered unit alternation
`^(%|sq\s*km|km|nm|m|years?|kW|kWh|bbl/day|liters|metric tonn?es?|USD|deaths|births)`
(case-sensitive), returning the matched text. -/
def tmUnits (l : List Char) : Option (List Char) :=
  (match stripLit "%".data l with
   | some _ => some "%".data
   | none => none) <|>
  (do
    let r1 ← stripLit "sq".data l
    match r1.span pyWs with
    | (w, r2) => do
      let _ ← stripLit "km".data r2
      some ("sq".data ++ w ++ "km".data)) <|>
  (match stripLit "km".data l with
   | some _ => some "km".data
   | none => none) <|>
  (match stripLit "nm".data l with
   | some _ => some "nm".data
   | none => none) <|>
  (match stripLit "m".data l with
   | some _ => some "m".data
   | none => none) <|>
  (do
    let r1 ← stripLit "year".data l
    match r1 with
    | 's' :: _ => some "years".data
    | _ => some "year".data) <|>
  (match stripLit "kW".data l with
   | some _ => some "kW".data
   | none => none) <|>
  (match stripLit "kWh".data l with
   | some _ => some "kWh".data
   | none => none) <|>
  (match stripLit "bbl/day".data l with
   | some _ => some "bbl/day".data
   | none => none) <|>
  (match stripLit "liters".data l with
   | some _ => some "liters".data
   | none => none) <|>
  (do
    let r1 ← stripLit "metric ton".data l
    (do
      let r2 ← stripLit "ne".data r1
      match r2 with
      | 's' :: _ => some "metric tonnes".data
      | _ => some "metric tonne".data) <|>
    (do
      let r2 ← stripLit "e".data r1
      match r2 with
      | 's' :: _ => some "metric tones".data
      | _ => some "metric tone".data)) <|>
  (match stripLit "USD".data l with
   | some _ => some "USD".data
   | none => none) <|>
  (match stripLit "deaths".data l with
   | some _ => some "deaths".data
   | none => none) <|>
  (match stripLit "births".data l with
   | some _ => some "births".data
   | none => none)

/-- Matcher for `\$([\d.,]+)\s*(trillion|billion|million)?` (IGNORECASE),
the generic extractor's dollar test. -/
def tmDollarNoYear (l : List Char) : Option ((List Char × Option String) × List Char) :=
  match l with
  | '$' :: rest =>
    match rest.span isDollarValCh with
    | (v, r1) =>
      if v.isEmpty then none
      else
        let r2 := dropWs r1
        match stripLitCI "trillion".data r2 with
        | some r => some ((v, some "trillion"), r)
        | none =>
          match stripLitCI "billion".data r2 with
          | some r => some ((v, some "billion"), r)
          | none =>
            match stripLitCI "million".data r2 with
            | some r => some ((v, some "million"), r)
            | none => some ((v, none), r2)
  | _ => none

/-- Matcher for `([\d.]+)%`. -/
def tmPct (l : List Char) : Option (List Char × List Char) :=
  match l.span isNumDotCh with
  | (g, r1) =>
    if g.isEmpty then none
    else
      match r1 with
      | '%' :: r2 => some (g, r2)
      | _ => none

/-- The row built for one labelled segment of `parse_generic`.  The dollar
and percentage branches call `float` unguarded, so those can raise. -/
def genericLabelRow (fid : Nat) (part : List Char) (g1 g2 : List Char) : Except Unit Row :=
  let label : String := ⟨(lowerL (pyStripR g1)).map (fun ch => if ch = ' ' then '_' else ch)⟩
  let valText := pyStripR g2
  match numGroup1 valText with
  | some (num, r3) =>
    let unitText := pyStripR ((dropWs r3).takeWhile dotCh)
    let units := (tmUnits unitText).map (fun u => (⟨u⟩ : String))
    .ok (make_row fid label (parse_number num) units none (extract_date_est valText) none
      (some ⟨part⟩))
  | none =>
    match searchAux tmDollarNoYear valText with
    | some (_, g, _) =>
      match pyFloatE (g.1.filter (fun c => c ≠ ',')) with
      | .error e => .error e
      | .ok q =>
        .ok (make_row fid label (some (dollarScale g.2 q)) (some "USD") none
          (extract_date_est valText) none (some ⟨part⟩))
    | none =>
      match searchAux tmPct valText with
      | some (_, g, _) =>
        match pyFloatE g with
        | .error e => .error e
        | .ok q =>
          .ok (make_row fid label (some q) (some "%") none (extract_date_est valText) none
            (some ⟨part⟩))
      | none =>
        .ok (make_row fid label none none (some ⟨valText⟩) none none (some ⟨part⟩))

/-- One iteration of the `parse_generic` segment loop. -/
def genericStep (fid : Nat) (dEst : Option String) (rank : Option Nat)
    (rows : List Row) (part : List Char) : Except Unit (List Row) :=
  match matchLabel part with
  | some (g1, g2) =>
    match genericLabelRow fid part g1 g2 with
    | .error e => .error e
    | .ok r => .ok (rows ++ [r])
  | none =>
    if rows.isEmpty then
      match numGroup1 (pyStripR part) with
      | some (num, _) =>
        match parse_number num with
        | some q => .ok (rows ++ [make_row fid "value" (some q) none none dEst rank
            (some ⟨part⟩)])
        | none => .ok rows
      | none => .ok rows
    else .ok rows

/-- The `parse_generic` segment loop. -/
def genericLoop (fid : Nat) (dEst : Option String) (rank : Option Nat) :
    List (List Char) → List Row → Except Unit (List Row)
  | [], rows => .ok rows
  | p :: ps, rows =>
    match genericStep fid dEst rank rows p with
    | .error e => .error e
    | .ok rows2 => genericLoop fid dEst rank ps rows2

/-- The segment split of `parse_generic`: pipe-delimited segments, each
stripped, or the whole content as the only segment. -/
def genericParts (c : List Char) : List (List Char) :=
  if containsSub " | ".data c then (splitSub " | ".data (c.length + 1) c).map pyStripR
  else [c]

/-- `parse_generic` of `parse_field_values.py`: the registered fallback for
canonical names without a specialized extractor. -/
def parse_generic (fid : Nat) (content0 : String) : Except Unit (List Row) :=
  let rank := extract_rank content0.data
  let c := (normalize_content content0).data
  let dEst := extract_date_est c
  if (pyStripR c).isEmpty then .ok []
  else
    match genericLoop fid dEst rank (genericParts c) [] with
    | .error e => .error e
    | .ok rows =>
      if rows.isEmpty then
        .ok [make_row fid "value" none none (some ⟨(pyStripR c).take 4000⟩) dEst rank
          (some ⟨(pyStripR c).take MAX_FRAG_LEN⟩)]
      else .ok rows

/-! ## The Value Extraction Dispatcher (`main` of `parse_field_values.py`) -/

/-- An extractor as dispatched: a possibly-raising function of
`(field_id, content)`. -/
abbrev Extractor := Nat → String → Except Unit (List Row)

/-- A registry assigning specialized extractors to canonical names. -/
abbrev Registry := String → Option Extractor

/-- `parse_area` as a registry entry (it cannot raise). -/
def parse_areaE : Extractor := fun fid c => .ok (parse_area fid c)

/-- `parse_gps` as a registry entry (it cannot raise). -/
def parse_gpsE : Extractor := fun fid c => .ok (parse_gps fid c)

/-- `parse_multi_year_dollar` as a registry entry (it cannot raise). -/
def parse_multi_year_dollarE : Extractor := fun fid c => .ok (parse_multi_year_dollar fid c)

/-- The sub-registry of the source's `FIELD_PARSERS` dispatch table
restricted to the extractors embedded in this development; on these keys it
agrees with the source table. -/
def FIELD_PARSERS : List (String × Extractor) :=
  [("Area", parse_areaE),
   ("Life expectancy at birth", parse_life_exp),
   ("Real GDP (purchasing power parity)", parse_multi_year_dollarE),
   ("GDP (purchasing power parity)", parse_multi_year_dollarE),
   ("Real GDP per capita", parse_multi_year_dollarE),
   ("GDP - per capita (PPP)", parse_multi_year_dollarE),
   ("GDP (official exchange rate)", parse_multi_year_dollarE),
   ("Electricity", parse_electricity),
   ("Geographic coordinates", parse_gpsE),
   ("Current account balance", parse_multi_year_dollarE),
   ("Reserves of foreign exchange and gold", parse_multi_year_dollarE),
   ("Debt - external", parse_multi_year_dollarE)]

/-- Lookup into the embedded dispatch table. -/
def embeddedRegistry : Registry := fun name => FIELD_PARSERS.lookup name

/-- `canonical_map.get(field_name, field_name)` of `main`. -/
def resolveCanonical (cmap : String → Option String) (name : String) : String :=
  (cmap name).getD name

/-- The per-field body of `main`'s loop: dispatch to the registered
extractor (or the generic fallback), and on an exception store the single
degraded row `('value', text_val = content[:4000])`. -/
def processField (reg : Registry) (canonical : String) (fid : Nat) (content : String) :
    List Row :=
  match ((reg canonical).getD parse_generic) fid content with
  | .ok rows => rows
  | .error _ =>
    [make_row fid "value" none none (some ⟨content.data.take 4000⟩) none none
      (some ⟨content.data.take MAX_FRAG_LEN⟩)]

/-- `main`'s loop over the field records of a batch: records with empty
content are skipped, every other record contributes its extractor's rows. -/
def processBatch (reg : Registry) (cmap : String → Option String) :
    List (Nat × String × String) → List Row
  | [] => []
  | (fid, name, content) :: rest =>
    (if content.isEmpty then []
     else processField reg (resolveCanonical cmap name) fid content)
      ++ processBatch reg cmap rest

/-! ## Field Name Canonicalizer (`build_field_mappings.py`)

The static lookup tables below are transcribed entry-for-entry, in source
order, from `build_field_mappings.py`.  Dictionaries become association
lists (the source dictionaries have no duplicate keys, so `List.lookup`
agrees with Python dictionary lookup); sets become lists queried with
membership. -/

def KNOWN_RENAMES : List (String × String) := [
  ("Agriculture", "Agricultural products"),
  ("Comparative area", "Area - comparative"),
  ("Total area", "Area"),
  ("Ethnic divisions", "Ethnic groups"),
  ("Language", "Languages"),
  ("Religion", "Religions"),
  ("Disputes", "Disputes - international"),
  ("International disputes", "Disputes - international"),
  ("Environment", "Environment - current issues"),
  ("Type", "Government type"),
  ("Type of government", "Government type"),
  ("Leaders", "Executive branch"),
  ("Branches", "Military and security forces"),
  ("Overview", "Economic overview"),
  ("Telecommunications", "Telecommunication systems"),
  ("Railroads", "Railways"),
  ("Highways", "Roadways"),
  ("Organized labor", "Organized labor"),
  ("National product", "Real GDP (purchasing power parity)"),
  ("National product per capita", "Real GDP per capita"),
  ("National product real growth rate", "Real GDP growth rate"),
  ("US diplomatic representation", "Diplomatic representation from the US"),
  ("Diplomatic representation in US", "Diplomatic representation in the US"),
  ("Civil air", "Civil air"),
  ("Airfield", "Airports"),
  ("Airport", "Airports"),
  ("Defense expenditures", "Military expenditures"),
  ("Unemployment", "Unemployment rate"),
  ("Television", "Broadcast media"),
  ("Televisions", "Televisions"),
  ("Aid", "Aid"),
  ("Diplomatic representation", "Diplomatic representation in the US"),
  ("Land area", "Area"),
  ("Territorial sea", "Maritime claims"),
  ("Economy - overview", "Economic overview"),
  ("Agriculture - products", "Agricultural products"),
  ("GDP (purchasing power parity)", "Real GDP (purchasing power parity)"),
  ("GDP - real growth rate", "Real GDP growth rate"),
  ("GDP real growth rate", "Real GDP growth rate"),
  ("GDP - per capita", "Real GDP per capita"),
  ("GDP - per capita (PPP)", "Real GDP per capita"),
  ("GDP per capita", "Real GDP per capita"),
  ("GDP", "Real GDP (purchasing power parity)"),
  ("GDP composition by sector", "GDP - composition, by sector of origin"),
  ("GDP - composition by sector", "GDP - composition, by sector of origin"),
  ("Elevation extremes", "Elevation"),
  ("Telephone system", "Telecommunication systems"),
  ("Telephones - main lines in use", "Telephones - fixed lines"),
  ("Telephones", "Telephones - fixed lines"),
  ("telephone", "Telephones - fixed lines"),
  ("Distribution of family income - Gini index", "Gini Index coefficient - distribution of family income"),
  ("Unemployment, youth ages 15-24", "Youth unemployment rate (ages 15-24)"),
  ("Military branches", "Military and security forces"),
  ("Maternal mortality rate", "Maternal mortality ratio"),
  ("Physicians density", "Physician density"),
  ("Radio broadcast stations", "Broadcast media"),
  ("Television broadcast stations", "Broadcast media"),
  ("Television-broadcast stations", "Broadcast media"),
  ("Radio", "Broadcast media"),
  ("Radios", "Radios"),
  ("Environment - international agreements", "International environmental agreements"),
  ("Ports and terminals", "Ports"),
  ("Ports and harbors", "Ports"),
  ("National anthem", "National anthem(s)"),
  ("Political parties and leaders", "Political parties"),
  ("Political pressure groups and leaders", "Political parties"),
  ("Flag description", "Flag"),
  ("Waterways", "Waterways"),
  ("Inland waterways", "Waterways"),
  ("Area Rankings", "Area - rankings"),
  ("Reserves of foreign exchange & gold", "Reserves of foreign exchange and gold"),
  ("Transportation note", "Transportation - note"),
  ("Education expenditures", "Education expenditure"),
  ("Health expenditures", "Health expenditure"),
  ("International law organization participation", "International law organization participation"),
  ("Currency", "Exchange rates"),
  ("Currency code", "Exchange rates"),
  ("Currency (code)", "Exchange rates"),
  ("Appendix A", "Appendix A"),
  ("Appendix B", "Appendix B"),
  ("Appendix C", "Appendix C"),
  ("Appendix D", "Appendix D"),
  ("Appendix E", "Appendix E"),
  ("Appendix F", "Appendix F"),
  ("Appendix G", "Appendix G"),
  ("Appendix H", "Appendix H"),
  ("Carbon dioxide emissions from consumption of energy", "Carbon dioxide emissions"),
  ("Terrorist groups - foreign based", "Terrorist group(s)"),
  ("Terrorist groups - home based", "Terrorist group(s)"),
  ("External debt", "Debt - external"),
  ("Geographic note", "Geography - note"),
  ("Defense note", "Military - note"),
  ("Government note", "Government - note"),
  ("Communications note", "Communications - note"),
  ("Name of country", "Country name"),
  ("Names", "Country name"),
  ("Long-form name", "Country name"),
  ("National capital", "Capital"),
  ("National holidays", "National holiday"),
  ("Exchange rate", "Exchange rates"),
  ("Industrial production", "Industrial production growth rate"),
  ("Industry", "Industries"),
  ("Land boundary", "Land boundaries"),
  ("Manpower availability", "Manpower availability"),
  ("GNP", "GNP"),
  ("Growth rate (population)", "Population growth rate"),
  ("Current Health Expenditure", "Current health expenditure"),
  ("GDP (purchasing power parity) - real", "Real GDP (purchasing power parity)"),
  ("Inflation rate - consumer price index", "Inflation rate (consumer prices)"),
  ("Major cities - population", "Major urban areas - population"),
  ("Head of Government", "Executive branch"),
  ("Chief of State", "Executive branch"),
  ("Elections", "Executive branch"),
  ("Member of", "International organization participation"),
  ("Other political or pressure groups", "Political parties"),
  ("Other political pressure groups", "Political parties"),
  ("Other political groups", "Political parties"),
  ("Current issues", "Environment - current issues"),
  ("Dependent area", "Dependency status"),
  ("Economic aid", "Economic aid"),
  ("Economic aid - donor", "Economic aid"),
  ("Economic aid - recipient", "Economic aid"),
  ("Communists", "Political parties"),
  ("Legislature", "Legislative branch"),
  ("Telephone", "Telecommunication systems"),
  ("Internet", "Internet users"),
  ("Internet Service Providers (ISPs)", "Internet users"),
  ("Internet hosts", "Internet users"),
  ("FAX", "Diplomatic representation in the US"),
  ("Gross national saving", "Gross national saving"),
  ("Ease of Doing Business Index scores", "Ease of Doing Business Index scores"),
  ("Maritime threats", "Maritime threats"),
  ("Child labor - children ages 5-14", "Child labor - children ages 5-14"),
  ("Labor force - by occupation", "Labor force - by occupation"),
  ("Demographic profile", "Demographic profile"),
  ("Airports - with paved runways", "Airports - with paved runways"),
  ("Airports - with unpaved runways", "Airports - with unpaved runways"),
  ("Fiscal year", "Fiscal year"),
  ("Icebreakers", "Icebreakers"),
  ("Economy of the area administered by Turkish Cypriots", "Economy of the area administered by Turkish Cypriots"),
  ("HIV/AIDS - adult prevalence rate", "HIV/AIDS - adult prevalence rate"),
  ("HIV/AIDS - deaths", "HIV/AIDS - deaths"),
  ("HIV/AIDS - people living with HIV/AIDS", "HIV/AIDS - people living with HIV/AIDS"),
  ("Stock of broad money", "Stock of broad money"),
  ("Stock of narrow money", "Stock of narrow money"),
  ("Stock of money", "Stock of narrow money"),
  ("Stock of quasi money", "Stock of narrow money"),
  ("Stock of domestic credit", "Stock of domestic credit"),
  ("Stock of direct foreign investment - at home", "Stock of direct foreign investment - at home"),
  ("Stock of direct foreign investment - abroad", "Stock of direct foreign investment - abroad"),
  ("Market value of publicly traded shares", "Market value of publicly traded shares"),
  ("Commercial bank prime lending rate", "Commercial bank prime lending rate"),
  ("Central bank discount rate", "Central bank discount rate"),
  ("Investment (gross fixed)", "Investment (gross fixed)"),
  ("Budget surplus (+) or deficit (-)", "Budget surplus (+) or deficit (-)"),
  ("Taxes and other revenues", "Taxes and other revenues"),
  ("Population - distribution", "Population distribution"),
  ("Population below poverty line", "Population below poverty line"),
  ("Freshwater withdrawal (domestic/industrial/agricultural)", "Total water withdrawal"),
  ("Major infectious diseases", "Major infectious diseases"),
  ("Credit ratings", "Credit ratings"),
  ("Food insecurity", "Food insecurity")]

def CONSOLIDATION_MAP : List (String × String) := [
  ("Oil - production", "Petroleum"),
  ("Oil - consumption", "Petroleum"),
  ("Oil - exports", "Petroleum"),
  ("Oil - imports", "Petroleum"),
  ("Oil - proved reserves", "Petroleum"),
  ("Crude oil - production", "Petroleum"),
  ("Crude oil - exports", "Petroleum"),
  ("Crude oil - imports", "Petroleum"),
  ("Crude oil - proved reserves", "Petroleum"),
  ("Refined petroleum products - production", "Petroleum"),
  ("Refined petroleum products - consumption", "Petroleum"),
  ("Refined petroleum products - exports", "Petroleum"),
  ("Refined petroleum products - imports", "Petroleum"),
  ("Natural gas - production", "Natural gas"),
  ("Natural gas - consumption", "Natural gas"),
  ("Natural gas - exports", "Natural gas"),
  ("Natural gas - imports", "Natural gas"),
  ("Natural gas - proved reserves", "Natural gas"),
  ("Electricity - production", "Electricity"),
  ("Electricity - consumption", "Electricity"),
  ("Electricity - exports", "Electricity"),
  ("Electricity - imports", "Electricity"),
  ("Electricity - installed generating capacity", "Electricity"),
  ("Electricity - from fossil fuels", "Electricity generation sources"),
  ("Electricity - from hydroelectric plants", "Electricity generation sources"),
  ("Electricity - from nuclear fuels", "Electricity generation sources"),
  ("Electricity - from other renewable sources", "Electricity generation sources"),
  ("Electricity - production by source", "Electricity generation sources"),
  ("Electricity production by source", "Electricity generation sources"),
  ("Military manpower - availability", "Military and security service personnel strengths"),
  ("Military manpower - fit for military service", "Military and security service personnel strengths"),
  ("Military manpower - reaching military age annually", "Military service age and obligation"),
  ("Military manpower - military age", "Military service age and obligation"),
  ("Military manpower - military age and obligation", "Military service age and obligation"),
  ("Manpower available for military service", "Military and security service personnel strengths"),
  ("Manpower fit for military service", "Military and security service personnel strengths"),
  ("Manpower reaching military service age annually", "Military service age and obligation"),
  ("Manpower reaching militarily significant age annually", "Military service age and obligation"),
  ("Military expenditures - dollar figure", "Military expenditures"),
  ("Military expenditures - percent of GDP", "Military expenditures"),
  ("Military manpower", "Military and security service personnel strengths"),
  ("Contiguous zone", "Maritime claims"),
  ("Continental shelf", "Maritime claims"),
  ("Exclusive economic zone", "Maritime claims"),
  ("Exclusive fishing zone", "Maritime claims"),
  ("Extended economic zone", "Maritime claims"),
  ("Gulf of Sidra closing line", "Maritime claims"),
  ("Military boundary line", "Maritime claims"),
  ("Electricity - capacity", "Electricity"),
  ("Electricity - consumption per capita", "Energy consumption per capita")]

def GOV_BODY_KEYWORDS : List String := [
  "Assembly",
  "Senate",
  "Parliament",
  "Congress",
  "Council",
  "Chamber",
  "House of",
  "Duma",
  "Diet",
  "Sejm",
  "Seimas",
  "Storting",
  "Bundestag",
  "Bundesrat",
  "Majlis",
  "Shura",
  "Tribunal",
  "Court",
  "Staten",
  "Knesset",
  "Hural",
  "Sobranje",
  "Soviet",
  "Keneshom",
  "Folketing",
  "Fono",
  "Legislative Yuan",
  "Lagting",
  "Majilis",
  "Presidential Administration",
  "Group of Assistants",
  "Armed Forces",
  "KRAF"]

def NOISE_PHRASES : List String := [
  "consists mainly of",
  "includes the following",
  "seat distribution",
  "coalition of",
  "made up of",
  "as follows",
  "countries have figures",
  "underdeveloped countries",
  "undeveloped countries",
  "search for",
  "mailing address",
  "were held at",
  "mutually supportive",
  "types of finished intelligence",
  "may be categorized",
  "pending acceptable definition",
  "one additional caution",
  "real output has remained",
  "party ruling coalition",
  "anti-market and",
  "union, two german",
  "factbook that may",
  "acceptable definition of the boundaries",
  "comments and queries are welcome"]

def SUB_FIELD_LABELS : List String := [
  "adjective",
  "arable land",
  "by occupation",
  "cabinet",
  "capacity",
  "chancery",
  "chief of mission",
  "chief of state",
  "chief of state and head of government",
  "commodities",
  "consulate(s)",
  "consulate(s) general",
  "consumption per capita",
  "conventional long form",
  "conventional short form",
  "donor",
  "eastern",
  "embassy",
  "expenditures",
  "female",
  "forest and woodland",
  "former",
  "international agreements",
  "local long form",
  "local short form",
  "male",
  "meadows and pastures",
  "noun",
  "other",
  "partners",
  "paved",
  "permanent crops",
  "production",
  "recipient",
  "revenues",
  "total",
  "total population",
  "unpaved",
  "usable",
  "western",
  "south",
  "southeast",
  "southwest",
  "north",
  "northeast",
  "northwest",
  "head of government",
  "election results",
  "elections",
  "water area",
  "branch office",
  "undifferentiated",
  "tatal population",
  "western-donor",
  "business organizations",
  "supreme leader and functional chief of state"]

def REGIONAL_ENTRIES : List String := [
  "Turkish Area",
  "Turkish area",
  "Turkish Cypriot area",
  "Turkish area - agriculture",
  "Turkish area - industry",
  "Turkish area - paved",
  "Turkish area - services",
  "Turkish area - total",
  "Turkish area - unpaved",
  "Turkish sector",
  "Serbia",
  "Serbia - 0-14 years",
  "Serbia - 15-64 years",
  "Serbia - 65 years and over",
  "Serbia - all ages",
  "Serbia - at birth",
  "Serbia - female",
  "Serbia - male",
  "Serbia - males age 15-49",
  "Serbia - males fit for military service",
  "Serbia - total population",
  "Serbia - under 15 years",
  "Sabah",
  "Sarawak",
  "Bonaire",
  "Sint Eustatius",
  "Sint Maarten",
  "Saba",
  "Wales",
  "Scotland",
  "Zanzibar",
  "West Island",
  "Republika Srpska",
  "Republic",
  "Swiss nationals",
  "Montenegro",
  "Montenegro - 0-14 years",
  "Montenegro - 15-64 years",
  "Montenegro - 65 years and over",
  "Montenegro - all ages",
  "Montenegro - at birth",
  "Montenegro - female",
  "Montenegro - male",
  "Montenegro - males age 15-49",
  "Montenegro - males fit for military service",
  "Montenegro - males reach military age (19) annually",
  "Montenegro - total population",
  "Montenegro - under 15 years",
  "Greek area",
  "Greek area - agriculture",
  "Greek area - industry",
  "Greek area - paved",
  "Greek area - recipient",
  "Greek area - services",
  "Greek area - total",
  "Greek area - unpaved",
  "Greek sector",
  "Greek Cypriot",
  "Cypriot area",
  "England",
  "Northern Ireland",
  "Germany",
  "Herzegovina",
  "Morocco",
  "Curacao",
  "Peninsular Malaysia",
  "Home Island",
  "Canadian dollars",
  "French francs",
  "German deutsche marks",
  "Italian lire",
  "Japanese yen",
  "British pounds",
  "Summer (January) population",
  "Summer only stations",
  "Summer-only stations",
  "Winter (July) population",
  "Year-round stations"]

def MISC_REFERENCE : List String := [
  "Appendixes",
  "Antarctic Treaty Summary",
  "Terminology",
  "Telephone numbers",
  "Reference maps",
  "Transnational Issues",
  "Transportation",
  "United Nations System",
  "Web uniform resource locator (URL)",
  "Weights and measures",
  "ACIC M 49-1",
  "Abbreviation",
  "Abbreviations",
  "Affiliation",
  "Data code",
  "Digraph",
  "Years",
  "Shipyards and Ship Building",
  "World Cup 2022",
  "Dates of information",
  "Entities",
  "Money figures",
  "FIPS 10-4",
  "ISO 3166",
  "IHO 23-3rd",
  "IHO 23-4th",
  "DIAM 65-18",
  "Country map",
  "Flag graphic",
  "Geographic names",
  "Maps",
  "GDP methodology",
  "GNP/GDP methodology",
  "Gross domestic product",
  "Gross domestic product (GDP)",
  "Gross national product",
  "Gross national product (GNP)",
  "Gross world product",
  "Gross world product (GWP)",
  "GWP (gross world product)",
  "Economy",
  "Geography",
  "People",
  "Communications",
  "Military",
  "Introduction",
  "International organizations",
  "Mail",
  "Note",
  "Notes",
  "Historical perspective",
  "Data codes-country",
  "Data codes-hydrographic",
  "Digraphs",
  "Member",
  "Environmental Agreements and Appendix E",
  "Environmental agreements",
  "Other agreements"]


/-- The `party_kw` list local to `is_noise`. -/
def PARTY_KEYWORDS : List String :=
  ["parties", "Bloc", "Rightist", "Leftist", "Populist",
   "Resistance forces", "Ruling coalition", "umbrella group",
   "Africans", "People\x27s Army"]

/-- ASCII uppercase letter. -/
def isUpperA (c : Char) : Bool := 'A' ≤ c && c ≤ 'Z'

/-- ASCII lowercase letter. -/
def isLowerA (c : Char) : Bool := 'a' ≤ c && c ≤ 'z'

/-- Python `str.isalpha()` on ASCII names. -/
def pyIsAlpha (l : List Char) : Bool := !l.isEmpty && l.all asciiAlpha

/-- Python `str.isupper()` on ASCII names: at least one cased character and
every cased character uppercase. -/
def pyIsUpper (l : List Char) : Bool :=
  l.any asciiAlpha && l.all (fun c => !asciiAlpha c || isUpperA c)

/-- `name and name[0].islower()`. -/
def startsLower (l : List Char) : Bool :=
  match l with
  | [] => false
  | c :: _ => isLowerA c

/-- The `re.match` test against `Articles? \d` at the start of a name. -/
def articlesNoise (l : List Char) : Bool :=
  match stripLit "Article".data l with
  | some r =>
    (match r with
     | 's' :: ' ' :: d :: _ => isDig d
     | _ => false) ||
    (match r with
     | ' ' :: d :: _ => isDig d
     | _ => false)
  | none => false

/-- `is_noise` of `build_field_mappings.py`: the noise-heuristic battery,
checks in source order, first hit wins. -/
def is_noise (name : String) (use_count first_year last_year : Nat) : Bool :=
  let l := name.data
  if l.length ≤ 2 && pyIsAlpha l then true
  else if l.getLast? = some '.' && l.length ≤ 6 then true
  else if pyIsUpper l && l.length ≤ 4 && use_count ≤ 5 then true
  else if startsLower l && use_count ≤ 10 then true
  else if 80 < l.length && use_count ≤ 3 then true
  else if NOISE_PHRASES.any (fun p => containsSub p.data (lowerL l)) then true
  else if (stripLit "with run".data l).isSome then true
  else if (stripLit "with permanent".data l).isSome then true
  else if articlesNoise l then true
  else if l.contains ',' && use_count ≤ 3 && 40 < l.length then true
  else if SUB_FIELD_LABELS.contains name then true
  else if last_year ≤ 2001 && use_count ≤ 10 &&
      PARTY_KEYWORDS.any (fun kw => containsSub (lowerL kw.data) (lowerL l)) then true
  else if startsLower l && first_year ≤ 1998 then true
  else if use_count ≤ 5 && last_year ≤ 2001 && l.length < 40 then true
  else if (stripLit "US--".data l).isSome || (stripLit "US as ".data l).isSome then true
  else if containsSub "includes".data l && use_count ≤ 5 then true
  else if l.getLast? = some ')' && use_count ≤ 3 && last_year ≤ 2001 then true
  else false

/-- `is_gov_body` of `build_field_mappings.py`. -/
def is_gov_body (name : String) (use_count _first_year last_year : Nat) : Bool :=
  if 2001 < last_year then false
  else if 100 < use_count then false
  else GOV_BODY_KEYWORDS.any (fun kw => containsSub kw.data name.data)

/-- Tail validity for the dash-split pattern's final `(.+)$` group: the
remainder must be non-empty and newline-free. -/
def dashTailOK (t : List Char) : Bool := !t.isEmpty && t.all dotCh

/-- The lazy split of `DASH_RE`: grow group 1 one character at a time, and
at each boundary prefer a literal `--`, then a single `-` whose preceding
character is not a space. -/
def dashSplit : Nat → List Char → List Char → Option (List Char × List Char)
  | 0, _, _ => none
  | _ + 1, _, [] => none
  | fuel + 1, g1, c :: rest =>
    if c = '\n' then none
    else
      let g2 := g1 ++ [c]
      (match rest with
       | '-' :: '-' :: tail => if dashTailOK tail then some (g2, tail) else none
       | _ => none) <|>
      (match rest with
       | '-' :: tail => if c ≠ ' ' && dashTailOK tail then some (g2, tail) else none
       | _ => none) <|>
      dashSplit fuel g2 rest

/-- `normalize_dashes` of `build_field_mappings.py`: reformat a
missing-space dash as ` - `, or `none` when the pattern does not match. -/
def normalize_dashes (name : String) : Option String :=
  (dashSplit (name.data.length + 1) [] name.data).map (fun pr =>
    (⟨pyStripR pr.1 ++ " - ".data ++ pyStripR pr.2⟩ : String))

/-- The canonicalizer's output row: the tuple returned by `apply_rules`. -/
structure FieldMapping where
  original : String
  canonical : String
  mapping_type : String
  consolidated_to : Option String
  is_noise : Bool
  first_year : Nat
  last_year : Nat
  use_count : Nat
  notes : Option String
deriving DecidableEq

/-- Rules 3 to 7 of `apply_rules` (reached when neither the identity rule
nor a dash-normalization branch returned). -/
def applyRulesFrom3 (original : String) (first_year last_year use_count : Nat) :
    FieldMapping :=
  match KNOWN_RENAMES.lookup original with
  | some canon =>
    ⟨original, canon, "rename", none, false, first_year, last_year, use_count, none⟩
  | none =>
    match CONSOLIDATION_MAP.lookup original with
    | some parent =>
      ⟨original, original, "consolidation", some parent, false, first_year, last_year,
        use_count, none⟩
    | none =>
      if is_gov_body original use_count first_year last_year then
        ⟨original, "Legislative branch", "country_specific", none, false, first_year,
          last_year, use_count, none⟩
      else if REGIONAL_ENTRIES.contains original then
        ⟨original, original, "country_specific", none, false, first_year, last_year,
          use_count, some "regional sub-entry"⟩
      else if MISC_REFERENCE.contains original then
        ⟨original, original, "country_specific", none, false, first_year, last_year,
          use_count, some "reference entry"⟩
      else if is_noise original use_count first_year last_year then
        ⟨original, original, "noise", none, true, first_year, last_year, use_count, none⟩
      else
        ⟨original, original, "manual", none, false, first_year, last_year, use_count, none⟩

/-- `apply_rules` of `build_field_mappings.py`: the rule cascade, first
match wins.  `modern_names` is the identity set computed from the 2024/2025
corpus years (a batch input, passed as a membership predicate). -/
def apply_rules (original : String) (first_year last_year use_count : Nat)
    (modern_names : String → Bool) : FieldMapping :=
  if modern_names original && (KNOWN_RENAMES.lookup original).isNone then
    ⟨original, original, "identity", none, false, first_year, last_year, use_count, none⟩
  else
    match normalize_dashes original with
    | some normalized =>
      match KNOWN_RENAMES.lookup normalized with
      | some canon =>
        ⟨original, canon, "dash_format", none, false, first_year, last_year, use_count,
          some ("dash -> " ++ normalized ++ " -> " ++ canon)⟩
      | none =>
        if modern_names normalized then
          ⟨original, normalized, "dash_format", none, false, first_year, last_year,
            use_count, some ("dash -> " ++ normalized)⟩
        else
          match CONSOLIDATION_MAP.lookup normalized with
          | some parent =>
            ⟨original, normalized, "dash_format", some parent, false, first_year,
              last_year, use_count, some ("dash -> " ++ normalized ++ " (consolidated)")⟩
          | none => applyRulesFrom3 original first_year last_year use_count
    | none => applyRulesFrom3 original first_year last_year use_count

/-! ## Helper lemmas -/

theorem qmul_eq (a b : ℚ) : qmul a b = a * b := by
  rw [Rat.mul_def, Rat.normalize_eq_mkRat]
  rfl

theorem qadd_eq (a b : ℚ) : qadd a b = a + b := (Rat.add_def' a b).symm

theorem qc_eq (n : Int) : qc n = (n : ℚ) := by
  simp [qc]

theorem dropWhile_dropWhile (p : Char → Bool) (l : List Char) :
    List.dropWhile p (List.dropWhile p l) = List.dropWhile p l := by
  induction l with
  | nil => rfl
  | cons c t ih =>
    by_cases h : p c
    · simp [List.dropWhile_cons, h, ih]
    · simp [List.dropWhile_cons, h]

theorem dropWhile_head_false (p : Char → Bool) (c : Char) (t l : List Char)
    (h : List.dropWhile p l = c :: t) : p c = false := by
  induction l with
  | nil => simp at h
  | cons a s ih =>
    rw [List.dropWhile_cons] at h
    by_cases ha : p a
    · rw [if_pos ha] at h
      exact ih h
    · rw [if_neg ha] at h
      cases h
      exact Bool.of_not_eq_true ha

theorem dropWhile_of_head_false (p : Char → Bool) (c : Char) (t : List Char)
    (h : p c = false) : List.dropWhile p (c :: t) = c :: t := by
  simp [List.dropWhile_cons, h]

theorem pyStripR_idem (l : List Char) : pyStripR (pyStripR l) = pyStripR l := by
  unfold pyStripR
  set A := List.dropWhile pyWs l with hA
  set B := List.dropWhile pyWs A.reverse with hB
  have hpre : B.reverse <+: A := by
    rw [← List.reverse_reverse A]
    exact List.reverse_prefix.2 (List.dropWhile_suffix pyWs)
  have hstep1 : List.dropWhile pyWs B.reverse = B.reverse := by
    match hBr : B.reverse with
    | [] => rfl
    | c :: t =>
      apply dropWhile_of_head_false
      rw [hBr] at hpre
      obtain ⟨s, hs⟩ := hpre
      have : List.dropWhile pyWs A = A := by
        rw [hA]
        exact dropWhile_dropWhile pyWs l
      rw [← hs] at this
      exact dropWhile_head_false pyWs c (t ++ s) _ this
  rw [hstep1, List.reverse_reverse, hB, dropWhile_dropWhile]

theorem pyStripR_ne_nil (c : Char) (t : List Char) (h : pyWs c = false) :
    pyStripR (c :: t) ≠ [] := by
  unfold pyStripR
  rw [dropWhile_of_head_false pyWs c t h]
  intro hcon
  have : List.dropWhile pyWs (c :: t).reverse = [] := by
    have := congrArg List.reverse hcon
    simpa using this
  rw [List.dropWhile_eq_nil_iff] at this
  have hc := this c (by simp)
  rw [h] at hc
  exact Bool.false_ne_true hc

theorem alpha_not_ws (c : Char) (h : asciiAlpha c = true) : pyWs c = false := by
  by_cases h1 : c = ' '
  · subst h1; exact absurd h (by decide)
  · by_cases h2 : c = '\t'
    · subst h2; exact absurd h (by decide)
    · by_cases h3 : c = '\n'
      · subst h3; exact absurd h (by decide)
      · by_cases h4 : c = '\r'
        · subst h4; exact absurd h (by decide)
        · by_cases h5 : c = '\x0b'
          · subst h5; exact absurd h (by decide)
          · by_cases h6 : c = '\x0c'
            · subst h6; exact absurd h (by decide)
            · simp [pyWs, h1, h2, h3, h4, h5, h6]

theorem strMk_ne_empty (l : List Char) (h : l ≠ []) : (⟨l⟩ : String) ≠ "" := by
  intro hcon
  apply h
  have : (⟨l⟩ : String).data = ("" : String).data := by rw [hcon]
  simpa using this

theorem make_row_field_id (fid : Nat) (sub : String) (n : Option ℚ) (u t d : Option String)
    (r : Option Nat) (f : Option String) :
    (make_row fid sub n u t d r f).field_id = fid := rfl

theorem make_row_sub_field (fid : Nat) (sub : String) (n : Option ℚ) (u t d : Option String)
    (r : Option Nat) (f : Option String) :
    (make_row fid sub n u t d r f).sub_field = sub := rfl

theorem matchLabel_shape (part : List Char) (g1 g2 : List Char)
    (h : matchLabel part = some (g1, g2)) :
    ∃ c run, g1 = c :: run ∧ asciiAlpha c = true := by
  cases part with
  | nil => simp [matchLabel] at h
  | cons c rest =>
    by_cases hc : asciiAlpha c
    · simp only [matchLabel, hc, if_true] at h
      rcases hsp : rest.span labelClassCh with ⟨run, r1⟩
      rw [hsp] at h
      split at h
      · split at h
        · rcases Option.map_eq_some'.1 h with ⟨pr, _, hpr⟩
          injection hpr with h1 h2
          exact ⟨c, _, h1.symm, hc⟩
        · exact absurd h (by simp)
      · exact absurd h (by simp)
    · simp [matchLabel, hc] at h

theorem genericLabelRow_props (fid : Nat) (part g1 g2 : List Char) (row : Row)
    (hshape : ∃ c run, g1 = c :: run ∧ asciiAlpha c = true)
    (h : genericLabelRow fid part g1 g2 = .ok row) :
    row.field_id = fid ∧ row.sub_field ≠ "" := by
  obtain ⟨c, run, rfl, hc⟩ := hshape
  have hne : (⟨(lowerL (pyStripR (c :: run))).map
      (fun ch => if ch = ' ' then '_' else ch)⟩ : String) ≠ "" := by
    apply strMk_ne_empty
    intro hcon
    rw [List.map_eq_nil_iff] at hcon
    unfold lowerL at hcon
    rw [List.map_eq_nil_iff] at hcon
    exact pyStripR_ne_nil c run (alpha_not_ws c hc) hcon
  unfold genericLabelRow at h
  dsimp only at h
  split at h
  · cases h
    exact ⟨rfl, hne⟩
  · split at h
    · split at h
      · exact Except.noConfusion h
      · cases h
        exact ⟨rfl, hne⟩
    · split at h
      · split at h
        · exact Except.noConfusion h
        · cases h
          exact ⟨rfl, hne⟩
      · cases h
        exact ⟨rfl, hne⟩

theorem genericStep_props (fid : Nat) (dEst : Option String) (rank : Option Nat)
    (rows : List Row) (part : List Char) (rows2 : List Row)
    (h : genericStep fid dEst rank rows part = .ok rows2) :
    ∀ x ∈ rows2, x ∈ rows ∨ (x.field_id = fid ∧ x.sub_field ≠ "") := by
  unfold genericStep at h
  split at h
  case _ g1 g2 hml =>
    split at h
    · exact Except.noConfusion h
    case _ row hlr =>
      cases h
      intro x hx
      rcases List.mem_append.1 hx with hx1 | hx2
      · exact Or.inl hx1
      · rcases List.mem_singleton.1 hx2 with rfl
        exact Or.inr (genericLabelRow_props fid part g1 g2 x
          (matchLabel_shape part g1 g2 hml) hlr)
  case _ =>
    split at h
    · split at h
      · split at h
        · cases h
          intro x hx
          rcases List.mem_append.1 hx with hx1 | hx2
          · exact Or.inl hx1
          · rcases List.mem_singleton.1 hx2 with rfl
            exact Or.inr ⟨rfl, by simp [make_row_sub_field]⟩
        · cases h
          exact fun x hx => Or.inl hx
      · cases h
        exact fun x hx => Or.inl hx
    · cases h
      exact fun x hx => Or.inl hx

theorem genericLoop_props (fid : Nat) (dEst : Option String) (rank : Option Nat)
    (parts : List (List Char)) (acc rows : List Row)
    (hacc : ∀ x ∈ acc, x.field_id = fid ∧ x.sub_field ≠ "")
    (h : genericLoop fid dEst rank parts acc = .ok rows) :
    ∀ x ∈ rows, x.field_id = fid ∧ x.sub_field ≠ "" := by
  induction parts generalizing acc with
  | nil =>
    unfold genericLoop at h
    cases h
    exact hacc
  | cons p ps ih =>
    unfold genericLoop at h
    split at h
    · exact absurd h (by simp)
    case _ rows2 hstep =>
      apply ih rows2 _ h
      intro x hx
      rcases genericStep_props fid dEst rank acc p rows2 hstep x hx with hin | hp
      · exact hacc x hin
      · exact hp

theorem stripR_normalize (s : String) :
    pyStripR (normalize_content s).data = (normalize_content s).data := by
  unfold normalize_content
  split
  · rfl
  · exact pyStripR_idem _

theorem genericLoop_nil (fid : Nat) (dEst : Option String) (rank : Option Nat)
    (parts : List (List Char))
    (h1 : ∀ part ∈ parts, matchLabel part = none)
    (h2 : ∀ part ∈ parts,
      Option.bind (numGroup1 (pyStripR part)) (fun pr => parse_number pr.1) = none) :
    genericLoop fid dEst rank parts [] = .ok [] := by
  induction parts with
  | nil => rfl
  | cons p ps ih =>
    have hstep : genericStep fid dEst rank [] p = .ok [] := by
      unfold genericStep
      rw [h1 p (by simp)]
      simp only [List.isEmpty_nil, if_true]
      have hb := h2 p (by simp)
      rcases hng : numGroup1 (pyStripR p) with _ | ⟨num, r3⟩
      · rfl
      · dsimp only
        rw [hng] at hb
        simp only [Option.bind] at hb
        rw [hb]
    unfold genericLoop
    rw [hstep]
    exact ih (fun q hq => h1 q (by simp [hq])) (fun q hq => h2 q (by simp [hq]))

theorem parse_generic_all (fid : Nat) (content : String) (rows : List Row)
    (hok : parse_generic fid content = .ok rows) :
    ∀ x ∈ rows, x.field_id = fid ∧ x.sub_field ≠ "" := by
  unfold parse_generic at hok
  dsimp only at hok
  split at hok
  · cases hok
    intro x hx
    simp at hx
  · split at hok
    · exact Except.noConfusion hok
    case _ lrows hloop =>
      split at hok
      · cases hok
        intro x hx
        rcases List.mem_singleton.1 hx with rfl
        refine ⟨rfl, ?_⟩
        rw [make_row_sub_field]
        decide
      · cases hok
        exact genericLoop_props fid _ _ _ [] _ (by simp) hloop

theorem parse_generic_ne_nil (fid : Nat) (content : String) (rows : List Row)
    (hok : parse_generic fid content = .ok rows)
    (hne : (pyStripR (normalize_content content).data).isEmpty = false) :
    rows ≠ [] := by
  unfold parse_generic at hok
  dsimp only at hok
  rw [hne] at hok
  simp only [Bool.false_eq_true, if_false] at hok
  split at hok
  · exact Except.noConfusion hok
  case _ lrows hloop =>
    split at hok
    · cases hok
      simp
    case _ hlne =>
      cases hok
      intro hcon
      rw [hcon] at hlne
      simp at hlne

theorem dollarRowOf_units (fid : Nat) (rank : Option Nat) (im : Nat × DollarM × List Char)
    (r : Row) (h : dollarRowOf fid rank im = some r) : r.units = some "USD" := by
  unfold dollarRowOf at h
  split at h
  · exact Option.noConfusion h
  · cases h
    rfl

theorem dollarRows_rank_none (fid : Nat) (rank : Option Nat) :
    ∀ (ms : List (DollarM × List Char)) (k : Nat), 1 ≤ k →
    ∀ r ∈ (ms.enumFrom k).filterMap (dollarRowOf fid rank), r.rank = none := by
  intro ms
  induction ms with
  | nil => intro k _ r hr; simp at hr
  | cons m tl ih =>
    intro k hk r hr
    rw [List.enumFrom_cons] at hr
    rcases hng : dollarRowOf fid rank (k, m) with _ | row
    · rw [List.filterMap_cons_none hng] at hr
      exact ih (k + 1) (Nat.le_succ_of_le hk) r hr
    · rw [List.filterMap_cons_some hng] at hr
      rcases List.mem_cons.1 hr with hr1 | hr2
      · unfold dollarRowOf at hng
        split at hng
        · exact Option.noConfusion hng
        · cases hng
          rw [hr1]
          have hk0 : ¬ (k = 0) := by omega
          simp [make_row, hk0]
      · exact ih (k + 1) (Nat.le_succ_of_le hk) r hr2

theorem dollarRows_keys (fid : Nat) (rank : Option Nat) :
    ∀ (ms : List (DollarM × List Char)) (k : Nat),
    (∀ m ∈ ms, m.1.year = none ∧
      (pyFloat? (m.1.val.filter (fun ch => ch ≠ ','))).isSome = true) →
    ((ms.enumFrom k).filterMap (dollarRowOf fid rank)).map Row.sub_field =
      (List.range' k ms.length).map
        (fun i => if i = 0 then "value" else (⟨"value_".data ++ (Nat.repr i).data⟩ : String)) := by
  intro ms
  induction ms with
  | nil => intro k _; rfl
  | cons m tl ih =>
    intro k h
    rw [List.enumFrom_cons]
    obtain ⟨hyr, hfl⟩ := h m (by simp)
    rcases hv : pyFloat? (m.1.val.filter (fun ch => ch ≠ ',')) with _ | v
    · rw [hv] at hfl
      simp at hfl
    · have hrow : dollarRowOf fid rank (k, m) =
        some (make_row fid (dollarKey k m.1.year)
          (some (dollarScale m.1.mag v)) (some "USD") none
          (m.1.year.map (fun y => (⟨y ++ " est.".data⟩ : String)))
          (if k = 0 then rank else none) (some ⟨m.2⟩)) := by
        unfold dollarRowOf
        rw [hv]
      rw [List.filterMap_cons_some hrow]
      rw [List.length_cons, List.range'_succ, List.map_cons, List.map_cons]
      congr 1
      · rw [make_row_sub_field, hyr]
        rfl
      · exact ih (k + 1) (fun q hq => h q (by simp [hq]))

theorem parse_area_sub (fid : Nat) (content : String) :
    ∀ r ∈ parse_area fid content, r.sub_field ≠ "" := by
  intro r hr
  unfold parse_area at hr
  dsimp only at hr
  rcases List.mem_append.1 hr with h1 | h2
  · rcases List.mem_append.1 h1 with hb | hc
    · rcases List.mem_filterMap.1 hb with ⟨label, hl, he⟩
      unfold areaLabelRow at he
      rcases Option.map_eq_some'.1 he with ⟨pr, _, hpr⟩
      rw [← hpr, make_row_sub_field]
      fin_cases hl <;> decide
    · rw [Option.mem_toList] at hc
      rcases Option.map_eq_some'.1 hc with ⟨pr, _, hpr⟩
      rw [← hpr, make_row_sub_field]
      decide
  · rw [Option.mem_toList] at h2
    rcases Option.map_eq_some'.1 h2 with ⟨pr, _, hpr⟩
    rw [← hpr, make_row_sub_field]
    decide

theorem parse_dollar_sub (fid : Nat) (content : String) :
    ∀ r ∈ parse_multi_year_dollar fid content, r.sub_field ≠ "" := by
  intro r hr
  unfold parse_multi_year_dollar at hr
  dsimp only at hr
  rcases List.mem_append.1 hr with hb | hn
  · unfold dollarValueRows at hb
    rcases List.mem_filterMap.1 hb with ⟨im, _, he⟩
    unfold dollarRowOf at he
    split at he
    · exact Option.noConfusion he
    · cases he
      rw [make_row_sub_field]
      unfold dollarKey
      split
      · apply strMk_ne_empty
        intro hcon
        rw [List.append_eq_nil] at hcon
        exact absurd hcon.1 (by decide)
      · split
        · decide
        · apply strMk_ne_empty
          intro hcon
          rw [List.append_eq_nil] at hcon
          exact absurd hcon.1 (by decide)
  · rw [Option.mem_toList] at hn
    rcases Option.map_eq_some'.1 hn with ⟨pr, _, hpr⟩
    rw [← hpr, make_row_sub_field]
    decide

/-! ## Claim C1 (corrected)

The spec's totality claim fails on the code: a field whose canonical name
is registered routes to that specialized extractor, and when none of the
extractor's patterns match, the extractor returns the empty list and the
dispatcher stores nothing for the field. -/

/-- Claim C1 counterexample: the field record `(42, "Geographic
coordinates", "on the Horn of Africa")` has non-empty content, its
canonical name is registered (it dispatches to `parse_gps`), and the
extraction produces zero Structured Value rows, so no row references this
`field_id`. -/
theorem C1_counterexample :
    embeddedRegistry "Geographic coordinates" = some parse_gpsE ∧
    ("on the Horn of Africa" : String) ≠ "" ∧
    processField embeddedRegistry "Geographic coordinates" 42 "on the Horn of Africa" = [] := by
  refine ⟨rfl, by decide, by decide⟩

/-- Claim C1 (amended): for every field record whose canonical name has no
registered specialized extractor and whose content is non-blank after
normalization, extraction through the dispatcher produces at least one row,
and every produced row references the field's `field_id`.  (A field routed
to a registered specialized extractor may produce zero rows, as the
counterexample shows, and a field whose content is blank after
normalization produces zero rows even through the generic fallback.) -/
theorem C1_theorem (reg : Registry) (canonical : String) (fid : Nat) (content : String)
    (hreg : reg canonical = none)
    (hne : (pyStripR (normalize_content content).data).isEmpty = false) :
    processField reg canonical fid content ≠ [] ∧
    ∀ r ∈ processField reg canonical fid content, r.field_id = fid := by
  unfold processField
  rw [hreg]
  simp only [Option.getD_none]
  rcases hpg : parse_generic fid content with e | rows
  · constructor
    · simp
    · intro r hr
      rcases List.mem_singleton.1 hr with rfl
      rfl
  · constructor
    · exact parse_generic_ne_nil fid content rows hpg hne
    · intro r hr
      exact (parse_generic_all fid content rows hpg r hr).1

/-- Claim C1 witness: the amended theorem applied to an unregistered
canonical name with prose content. -/
theorem C1_witness :
    processField embeddedRegistry "Climate" 8 "temperate; desert in north" ≠ [] :=
  (C1_theorem embeddedRegistry "Climate" 8 "temperate; desert in north" rfl (by decide)).1

/-! ## Claim C2 (confirmed) -/

/-- Claim C2: for a field record with non-empty content whose chosen
extractor raises, the dispatcher catches the exception and emits exactly
one degraded row — `sub_field = "value"`, `text_val` the length-bounded
content — and the batch continues with the remaining field records. -/
theorem C2_theorem (reg : Registry) (cmap : String → Option String) (fid : Nat)
    (name content : String) (rest : List (Nat × String × String))
    (hne : content ≠ "")
    (herr : ((reg (resolveCanonical cmap name)).getD parse_generic) fid content = .error ()) :
    processBatch reg cmap ((fid, name, content) :: rest) =
      make_row fid "value" none none (some ⟨content.data.take 4000⟩) none none
        (some ⟨content.data.take MAX_FRAG_LEN⟩) :: processBatch reg cmap rest := by
  have hstep : processBatch reg cmap ((fid, name, content) :: rest) =
      (if content.isEmpty then []
       else processField reg (resolveCanonical cmap name) fid content)
        ++ processBatch reg cmap rest := rfl
  rw [hstep]
  have hie : content.isEmpty = false := by
    cases hie2 : content.isEmpty
    · rfl
    · exact absurd ((String.isEmpty_iff content).1 hie2) hne
  rw [hie]
  simp only [Bool.false_eq_true, if_false]
  unfold processField
  rw [herr]
  simp

/-- Claim C2 witness: a batch whose first record's content crashes the
generic extractor (an unparseable dollar amount raises `ValueError` in
`float`) still processes the remaining record. -/
theorem C2_witness :
    processBatch embeddedRegistry (fun _ => none)
        [(5, "Unregistered name", "xy: $1.2.3"), (6, "Zed", "plain prose")] =
      make_row 5 "value" none none (some "xy: $1.2.3") none none (some "xy: $1.2.3") ::
        processBatch embeddedRegistry (fun _ => none) [(6, "Zed", "plain prose")] :=
  C2_theorem embeddedRegistry (fun _ => none) 5 "Unregistered name" "xy: $1.2.3"
    [(6, "Zed", "plain prose")] (by decide) (by decide)

/-! ## Claim C3 (corrected)

The fallback floor holds only for content that is still non-blank after
normalization: a non-empty content consisting of whitespace, or of nothing
but the world-rank annotation (which `normalize_content` deletes), produces
zero rows from the generic extractor, not one. -/

/-- Claim C3 counterexample: non-empty content in which no rule parses, yet
the generic extractor returns zero rows rather than exactly one (the
world-rank annotation is removed by normalization, leaving a blank). -/
theorem C3_counterexample :
    ("country comparison to the world: 12" : String) ≠ "" ∧
    parse_generic 1 "country comparison to the world: 12" = .ok [] := by
  refine ⟨by decide, by decide⟩

/-- Claim C3 (amended): for every content that is non-blank after
normalization, in which no segment matches the `label: value` pattern and
no bare number parses (hence no dollar amount or percentage is reachable
either), the generic extractor returns exactly one row with
`sub_field = "value"` and `text_val` equal to the normalized content (shown
here for contents within the 4000-character bound). -/
theorem C3_theorem (fid : Nat) (content : String)
    (hne : (pyStripR (normalize_content content).data).isEmpty = false)
    (hlab : ∀ part ∈ genericParts (normalize_content content).data, matchLabel part = none)
    (hbare : ∀ part ∈ genericParts (normalize_content content).data,
      Option.bind (numGroup1 (pyStripR part)) (fun pr => parse_number pr.1) = none)
    (hlen : (normalize_content content).data.length ≤ 4000) :
    parse_generic fid content =
      .ok [make_row fid "value" none none (some (normalize_content content))
        (extract_date_est (normalize_content content).data) (extract_rank content.data)
        (some ⟨(normalize_content content).data.take MAX_FRAG_LEN⟩)] := by
  unfold parse_generic
  dsimp only
  rw [hne]
  simp only [Bool.false_eq_true, if_false]
  rw [genericLoop_nil fid (extract_date_est (normalize_content content).data)
    (extract_rank content.data) (genericParts (normalize_content content).data) hlab hbare]
  simp only [List.isEmpty_nil, if_true]
  rw [stripR_normalize, List.take_of_length_le hlen]

/-- Claim C3 witness: the amended theorem applied to plain prose. -/
theorem C3_witness :
    parse_generic 1 "mountainous terrain" =
      .ok [make_row 1 "value" none none (some "mountainous terrain") none none
        (some "mountainous terrain")] :=
  C3_theorem 1 "mountainous terrain" (by decide) (by decide) (by decide) (by decide)

/-! ## Claim C4 (corrected)

Two of the claimed well-formedness conjuncts fail on the code: rows from
one field can collide on `sub_field` (the `total area` and `total` labels
of `parse_area` both produce the key `total`), and a row can have both
`numeric_val` and `text_val` unset (a `[\d,]+` group consisting of a lone
comma fails `parse_number`, which is stored as-is).  The non-empty
`sub_field` conjunct does hold for the cited extractors. -/

/-- Claim C4 counterexample: one concrete area content produces two rows
that share `sub_field = "total"` and whose `numeric_val` and `text_val` are
both unset. -/
theorem C4_counterexample :
    ¬ ((((parse_area 1 "total: , sq km total area: , sq km").map Row.sub_field).Nodup) ∧
       ∀ r ∈ parse_area 1 "total: , sq km total area: , sq km",
         r.numeric_val ≠ none ∨ r.text_val ≠ none) := by
  decide

/-- Claim C4 (amended): every row produced by the cited extractors (area,
multi-year dollar, generic fallback) has a non-empty `sub_field`; but rows
from one field's content may collide on `sub_field`, and a row may have
both `numeric_val` and `text_val` unset when its matched numeric fragment
fails to parse. -/
theorem C4_theorem (fid : Nat) (content : String) :
    (∀ r ∈ parse_area fid content, r.sub_field ≠ "") ∧
    (∀ r ∈ parse_multi_year_dollar fid content, r.sub_field ≠ "") ∧
    (∀ rows, parse_generic fid content = .ok rows → ∀ r ∈ rows, r.sub_field ≠ "") := by
  refine ⟨parse_area_sub fid content, parse_dollar_sub fid content, ?_⟩
  intro rows hok r hr
  exact (parse_generic_all fid content rows hok r hr).2

/-- Claim C4 witness: the amended theorem applied to a concrete area row. -/
theorem C4_witness :
    (make_row 1 "water" (some (qc 10)) (some "sq km") none none none
      (some "water: 10 sq km")).sub_field ≠ "" :=
  (C4_theorem 1 "water: 10 sq km").1 _ (by decide)

/-! ## Claim C5 (confirmed) -/

/-- Claim C5: the multi-year dollar extractor emits the two occurrences of
`"$1 billion (2020 est.) $1.2 billion (2021 est.)"` as `value_2020 = 1e9`
then `value_2021 = 1.2e9`, in left-to-right source order; and in general,
when no occurrence carries a year annotation (and every occurrence's value
parses), the value rows appear in source order with the fallback keys
`value`, `value_1`, `value_2`, … assigned in that order. -/
theorem C5_theorem :
    (parse_multi_year_dollar 1 "$1 billion (2020 est.) $1.2 billion (2021 est.)" =
      [make_row 1 "value_2020" (some (qc 1000000000)) (some "USD") none (some "2020 est.")
         none (some "$1 billion (2020 est.)"),
       make_row 1 "value_2021" (some (qc 1200000000)) (some "USD") none (some "2021 est.")
         none (some "$1.2 billion (2021 est.)")]) ∧
    ∀ (fid : Nat) (content : String),
      (∀ m ∈ dollarFind (normalize_content content).data,
        m.1.year = none ∧
          (pyFloat? (m.1.val.filter (fun ch => ch ≠ ','))).isSome = true) →
      ((parse_multi_year_dollar fid content).filter
          (fun r => r.units == some "USD")).map Row.sub_field =
        (List.range (dollarFind (normalize_content content).data).length).map
          (fun i => if i = 0 then "value"
            else (⟨"value_".data ++ (Nat.repr i).data⟩ : String)) := by
  constructor
  · decide
  · intro fid content h
    unfold parse_multi_year_dollar
    dsimp only
    rw [List.filter_append]
    have hnote : ((Option.map (fun pr =>
        make_row fid "note" none none
          (some ⟨pyStripR (pr.2.1 : List Char)⟩) none none
          (some ⟨fragOf pr.1 pr.2.2⟩))
        (searchAux tmNoteDollar (normalize_content content).data)).toList.filter
          (fun r => r.units == some "USD")) = [] := by
      rcases hsn : searchAux tmNoteDollar (normalize_content content).data with _ | pr
      · rfl
      · rfl
    rw [hnote, List.append_nil]
    have hval : (dollarValueRows fid (extract_rank content.data)
        (dollarFind (normalize_content content).data)).filter
          (fun r => r.units == some "USD") =
        dollarValueRows fid (extract_rank content.data)
          (dollarFind (normalize_content content).data) := by
      rw [List.filter_eq_self]
      intro r hr
      unfold dollarValueRows at hr
      rcases List.mem_filterMap.1 hr with ⟨im, _, he⟩
      rw [dollarRowOf_units fid (extract_rank content.data) im r he]
      rfl
    rw [hval]
    unfold dollarValueRows
    rw [show (dollarFind (normalize_content content).data).enum =
      (dollarFind (normalize_content content).data).enumFrom 0 from rfl]
    rw [List.range_eq_range']
    exact dollarRows_keys fid (extract_rank content.data)
      (dollarFind (normalize_content content).data) 0 h

/-- Claim C5 witness: the general fallback-key conjunct applied to a
two-occurrence content without year annotations. -/
theorem C5_witness :
    ((parse_multi_year_dollar 1 "$5 million $2 million").filter
        (fun r => r.units == some "USD")).map Row.sub_field = ["value", "value_1"] :=
  C5_theorem.2 1 "$5 million $2 million" (by decide)

/-! ## Claim C6 (corrected)

When the content carries a world-rank annotation but no dollar occurrence
at all (or the first occurrence's value does not parse), the extractor
returns no row carrying the rank — so "exactly one returned row carries
the rank" fails as stated.  With at least one parsed first occurrence, the
rank attaches to the first value row and to nothing else. -/

/-- Claim C6 counterexample: content consisting of only the world-rank
annotation is routed to the multi-year dollar extractor and returns zero
rows, so no returned row carries `rank = 5`. -/
theorem C6_counterexample :
    extract_rank ("country comparison to the world: 5" : String).data = some 5 ∧
    parse_multi_year_dollar 3 "country comparison to the world: 5" = [] := by
  refine ⟨by decide, by decide⟩

/-- Claim C6 (amended): for every content carrying a world-rank annotation
`N` that is routed to the multi-year dollar extractor and contains at least
one dollar occurrence whose value parses as the first occurrence, exactly
one returned row — the first — carries `rank = N`, and every other
returned row has `rank` unset. -/
theorem C6_theorem (fid : Nat) (content : String) (n : Nat)
    (hrank : extract_rank content.data = some n)
    (hfirst : (dollarFind (normalize_content content).data).head?.map
      (fun m => (pyFloat? (m.1.val.filter (fun ch => ch ≠ ','))).isSome) = some true) :
    (parse_multi_year_dollar fid content).map Row.rank =
      some n :: List.replicate ((parse_multi_year_dollar fid content).length - 1) none := by
  rcases hms : dollarFind (normalize_content content).data with _ | ⟨m0, tl⟩
  · rw [hms] at hfirst
    exact Option.noConfusion hfirst
  · rw [hms] at hfirst
    have hfl : (pyFloat? (m0.1.val.filter (fun ch => ch ≠ ','))).isSome = true := by
      simpa using hfirst
    rcases hv : pyFloat? (m0.1.val.filter (fun ch => ch ≠ ',')) with _ | v
    · rw [hv] at hfl
      simp at hfl
    · have hrow : dollarRowOf fid (extract_rank content.data) (0, m0) =
        some (make_row fid (dollarKey 0 m0.1.year)
          (some (dollarScale m0.1.mag v)) (some "USD") none
          (m0.1.year.map (fun y => (⟨y ++ " est.".data⟩ : String)))
          (if 0 = 0 then extract_rank content.data else none) (some ⟨m0.2⟩)) := by
        unfold dollarRowOf
        rw [hv]
      have hshape : parse_multi_year_dollar fid content =
          make_row fid (dollarKey 0 m0.1.year)
            (some (dollarScale m0.1.mag v)) (some "USD") none
            (m0.1.year.map (fun y => (⟨y ++ " est.".data⟩ : String)))
            (if 0 = 0 then extract_rank content.data else none) (some ⟨m0.2⟩) ::
          ((tl.enumFrom 1).filterMap (dollarRowOf fid (extract_rank content.data)) ++
            ((searchAux tmNoteDollar (normalize_content content).data).map (fun pr =>
              make_row fid "note" none none (some ⟨pyStripR pr.2.1⟩) none none
                (some ⟨fragOf pr.1 pr.2.2⟩))).toList) := by
        unfold parse_multi_year_dollar
        dsimp only
        unfold dollarValueRows
        rw [show (dollarFind (normalize_content content).data).enum =
          (dollarFind (normalize_content content).data).enumFrom 0 from rfl]
        rw [hms, List.enumFrom_cons, List.filterMap_cons_some hrow]
        rfl
      rw [hshape]
      rw [List.map_cons]
      have hall : ∀ r ∈ (tl.enumFrom 1).filterMap
          (dollarRowOf fid (extract_rank content.data)) ++
          ((searchAux tmNoteDollar (normalize_content content).data).map (fun pr =>
            make_row fid "note" none none (some ⟨pyStripR pr.2.1⟩) none none
              (some ⟨fragOf pr.1 pr.2.2⟩))).toList, r.rank = none := by
        intro r hr
        rcases List.mem_append.1 hr with h1 | h2
        · exact dollarRows_rank_none fid (extract_rank content.data) tl 1 (by omega) r h1
        · rw [Option.mem_toList] at h2
          rcases Option.map_eq_some'.1 h2 with ⟨pr, _, hpr⟩
          rw [← hpr]
          rfl
      have htl : List.map Row.rank
          ((tl.enumFrom 1).filterMap (dollarRowOf fid (extract_rank content.data)) ++
            ((searchAux tmNoteDollar (normalize_content content).data).map (fun pr =>
              make_row fid "note" none none (some ⟨pyStripR pr.2.1⟩) none none
                (some ⟨fragOf pr.1 pr.2.2⟩))).toList) =
          List.replicate
            ((tl.enumFrom 1).filterMap (dollarRowOf fid (extract_rank content.data)) ++
              ((searchAux tmNoteDollar (normalize_content content).data).map (fun pr =>
                make_row fid "note" none none (some ⟨pyStripR pr.2.1⟩) none none
                  (some ⟨fragOf pr.1 pr.2.2⟩))).toList).length none := by
        rw [← List.length_map _ Row.rank]
        exact List.eq_replicate_length.2 (fun b hb => by
          rcases List.mem_map.1 hb with ⟨r, hr, hrb⟩
          rw [← hrb]
          exact hall r hr)
      rw [htl]
      have h0 : (make_row fid (dollarKey 0 m0.1.year)
          (some (dollarScale m0.1.mag v)) (some "USD") none
          (m0.1.year.map (fun y => (⟨y ++ " est.".data⟩ : String)))
          (if 0 = 0 then extract_rank content.data else none)
          (some ⟨m0.2⟩)).rank = some n := by
        simp [make_row, hrank]
      rw [h0]
      simp
/-- Claim C6 witness: the amended theorem applied to a content with one
dollar occurrence and a rank annotation. -/
theorem C6_witness :
    (parse_multi_year_dollar 3 "$2 billion country comparison to the world: 7").map
      Row.rank = [some 7] :=
  C6_theorem 3 "$2 billion country comparison to the world: 7" 7 (by decide) (by decide)

/-! ## Claim C7 (confirmed) -/

/-- Claim C7: for the original name `"Economy-overview"` (given that it is
not in the modern identity vocabulary), the canonicalizer reformats the
missing-space dash to `"Economy - overview"`, rechecks the reformatted
string against the rename table first (then the modern vocabulary, then the
consolidation table), and returns `canonical_name = "Economic overview"`
with `mapping_type = "dash_format"` (the notes column records the
resolution chain). -/
theorem C7_theorem (modern : String → Bool) (fy ly uc : Nat)
    (h : modern "Economy-overview" = false) :
    apply_rules "Economy-overview" fy ly uc modern =
      { original := "Economy-overview", canonical := "Economic overview",
        mapping_type := "dash_format", consolidated_to := none, is_noise := false,
        first_year := fy, last_year := ly, use_count := uc,
        notes := some "dash -> Economy - overview -> Economic overview" } := by
  unfold apply_rules
  rw [h]
  simp only [Bool.false_and, Bool.false_eq_true, if_false]
  rfl

/-- Claim C7 witness: the cascade evaluated with an empty modern
vocabulary. -/
theorem C7_witness :
    apply_rules "Economy-overview" 1998 2000 3 (fun _ => false) =
      { original := "Economy-overview", canonical := "Economic overview",
        mapping_type := "dash_format", consolidated_to := none, is_noise := false,
        first_year := 1998, last_year := 2000, use_count := 3,
        notes := some "dash -> Economy - overview -> Economic overview" } :=
  C7_theorem (fun _ => false) 1998 2000 3 rfl

/-! ## Claim C8 (confirmed) -/

/-- Claim C8: the magnitude-suffix scaling convention — thousand, million,
billion, trillion multiply by 1e3, 1e6, 1e9, 1e12, and no suffix leaves the
value unchanged — holds uniformly at the suffix-scaling chains of the
embedded extractors (the electricity chain recognizes all four suffixes,
the dollar chains recognize trillion/billion/million); in particular
`"$2.5 trillion"` yields `2.5e12` and `"300 million"` (with a recognizing
pattern, e.g. electricity consumption) yields `3.0e8`. -/
theorem C8_theorem :
    (∀ v : ℚ,
      elecScale (some "thousand") v = 1000 * v ∧
      elecScale (some "million") v = 1000000 * v ∧
      elecScale (some "billion") v = 1000000000 * v ∧
      elecScale (some "trillion") v = 1000000000000 * v ∧
      elecScale none v = v ∧
      dollarScale (some "million") v = 1000000 * v ∧
      dollarScale (some "billion") v = 1000000000 * v ∧
      dollarScale (some "trillion") v = 1000000000000 * v ∧
      dollarScale none v = v) ∧
    parse_multi_year_dollar 1 "$2.5 trillion" =
      [make_row 1 "value" (some (qc 2500000000000)) (some "USD") none none none
        (some "$2.5 trillion")] ∧
    parse_electricity 2 "consumption: 300 million kWh" =
      .ok [make_row 2 "consumption" (some (qc 300000000)) (some "kWh") none none none
        (some "consumption: 300 million kWh")] ∧
    parse_electricity 3 "capacity: 2 thousand kW" =
      .ok [make_row 3 "installed_generating_capacity" (some (qc 2000)) (some "kW") none
        none none (some "capacity: 2 thousand kW")] := by
  refine ⟨?_, by decide, by decide, by decide⟩
  intro v
  refine ⟨?_, ?_, ?_, ?_, rfl, ?_, ?_, ?_, rfl⟩ <;>
    simp [elecScale, dollarScale, qmul_eq, qc_eq] <;> ring

/-- Claim C8 witness: the scaling equations instantiated at a concrete
value. -/
theorem C8_witness : elecScale (some "thousand") 7 = 1000 * 7 :=
  ((C8_theorem.1) 7).1

/-! ## Claim C9 (corrected)

`extract_date_est` runs three whole-string searches in sequence — the
`(YYYY est.)` form, then `(FYnn[/nn])`, then bare `(YYYY)` — so priority is
by form, not by position: a later `(YYYY est.)` beats an earlier bare
`(YYYY)`. -/

/-- Claim C9 counterexample: in `"(1999) (2024 est.)"` the bare-year
parenthetical occurs first, but the extractor returns the est-form match,
not `"1999"`. -/
theorem C9_counterexample :
    extract_date_est ("(1999) (2024 est.)" : String).data = some "2024 est." ∧
    (some "2024 est." : Option String) ≠ some "1999" := by
  refine ⟨by decide, by decide⟩

/-- Claim C9 (amended): the estimate extractor applies form precedence —
the leftmost `(YYYY est.)` parenthetical anywhere in the text wins;
otherwise the leftmost `(FYnn[/nn])`; otherwise the leftmost bare
`(YYYY)`; otherwise nothing.  Position in the text decides only among
occurrences of the same form. -/
theorem C9_theorem (l : List Char) :
    (∀ sfx g rest, searchAux tmEst l = some (sfx, g, rest) →
      extract_date_est l = some ⟨g⟩) ∧
    (searchAux tmEst l = none → ∀ sfx g rest, searchAux tmFY l = some (sfx, g, rest) →
      extract_date_est l = some ⟨g⟩) ∧
    (searchAux tmEst l = none → searchAux tmFY l = none →
      ∀ sfx g rest, searchAux tmBareYear l = some (sfx, g, rest) →
      extract_date_est l = some ⟨g⟩) ∧
    (searchAux tmEst l = none → searchAux tmFY l = none →
      searchAux tmBareYear l = none → extract_date_est l = none) := by
  refine ⟨?_, ?_, ?_, ?_⟩
  · intro sfx g rest h
    unfold extract_date_est
    rw [h]
  · intro h1 sfx g rest h2
    unfold extract_date_est
    rw [h1, h2]
  · intro h1 h2 sfx g rest h3
    unfold extract_date_est
    rw [h1, h2, h3]
  · intro h1 h2 h3
    unfold extract_date_est
    rw [h1, h2, h3]

/-- Claim C9 witness: the est-form conjunct applied to the counterexample
text. -/
theorem C9_witness :
    extract_date_est ("(FY93) (2024 est.)" : String).data = some "2024 est." :=
  (C9_theorem ("(FY93) (2024 est.)" : String).data).1
    "(2024 est.)".data "2024 est.".data [] (by decide)

/-! ## Claim C10 (confirmed) -/

/-- Claim C10: for content in the legacy shape `"X years male ... Y years
female"` where none of the modern labeled sub-patterns matched, the
life-expectancy extractor emits the male and female rows and a synthesized
`total_population` row whose value is the arithmetic mean `(X + Y) / 2`
rounded to one decimal place, and all three rows carry the same source
fragment.  (Rounding is modelled as round-half-even on the exact rational
mean; Python rounds the corresponding binary double.) -/
theorem C10_theorem (fid : Nat) (content : String) (sfx g1 g2 rest : List Char) (x y : ℚ)
    (h1 : searchAux tmTotPop (normalize_content content).data = none)
    (h2 : searchAux tmMaleY (normalize_content content).data = none)
    (h3 : searchAux tmFemaleY (normalize_content content).data = none)
    (h4 : searchAux tmLegacyLife (normalize_content content).data = some (sfx, (g1, g2), rest))
    (h5 : pyFloatE g1 = .ok x) (h6 : pyFloatE g2 = .ok y) :
    parse_life_exp fid content =
      .ok [make_row fid "male" (some x) (some "years") none none none
             (some ⟨fragOf sfx rest⟩),
           make_row fid "female" (some y) (some "years") none none none
             (some ⟨fragOf sfx rest⟩),
           make_row fid "total_population" (some (pyRound1 (qdivN (qadd x y) 2)))
             (some "years") none (extract_date_est (normalize_content content).data)
             (extract_rank content.data) (some ⟨fragOf sfx rest⟩)] := by
  unfold parse_life_exp
  dsimp only
  rw [h1, h2, h3]
  dsimp only
  unfold lifeLegacy
  rw [h4]
  dsimp only
  rw [h5, h6]
  simp

/-- Claim C10 witness: the theorem applied to the 1990 legacy content
`"76 years male, 82 years female (1990)"`, producing the synthesized mean
79.0. -/
theorem C10_witness :
    parse_life_exp 9 "76 years male, 82 years female (1990)" =
      .ok [make_row 9 "male" (some (qc 76)) (some "years") none none none
             (some "76 years male, 82 years female"),
           make_row 9 "female" (some (qc 82)) (some "years") none none none
             (some "76 years male, 82 years female"),
           make_row 9 "total_population" (some (qc 79)) (some "years") none
             (some "1990") none (some "76 years male, 82 years female")] :=
  C10_theorem 9 "76 years male, 82 years female (1990)"
    "76 years male, 82 years female (1990)".data "76".data "82".data " (1990)".data
    (qc 76) (qc 82) (by decide) (by decide) (by decide) (by decide) (by decide) (by decide)
